import Mathlib

/-!
TM4C123 NVIC and SysTick drivers.

A shallow embedding of `NVIC.c` / `NVIC.h` and `SysTick.c`, and the properties of
the drivers that the specification states.

Every driver function becomes a state transformer on `Machine`.  Machine words
are natural numbers; a store into a 32-bit register keeps the value modulo
`2 ^ 32`, and the C operators are given their 32-bit meaning by `shl32` and
`not32`.
-/

namespace TM4C

/-! ## Register layer -/

/-- Modelled from the spec: the register layer `tm4c123gh6pm_registers.h` is included by
both drivers but is not among the sources.  The specification describes it as a fixed set
of memory-mapped 32-bit cells, each directly readable and writable at its own fixed address:
the per-bank set-enable and clear-enable registers, the priority registers, the
system-handler control register, the three system priority registers and the timer's
control, reload and current-value registers.  Each macro name that the drivers use is one
cell; `NVIC_PRI registerIndex` is the word that `NVIC_SetPriorityIRQ` reaches through the
pointer `(volatile uint32 *)0xE000E400 + registerIndex`.  Distinct constructors are
distinct cells. -/
inductive Reg where
  | NVIC_EN0_REG
  | NVIC_EN1_REG
  | NVIC_EN2_REG
  | NVIC_EN3_REG
  | NVIC_DIS0_REG
  | NVIC_DIS1_REG
  | NVIC_DIS2_REG
  | NVIC_DIS3_REG
  | NVIC_SYSTEM_SYSHNDCTRL
  | NVIC_SYSTEM_PRI1_REG
  | NVIC_SYSTEM_PRI2_REG
  | NVIC_SYSTEM_PRI3_REG
  | SYSTICK_CTRL_REG
  | SYSTICK_RELOAD_REG
  | SYSTICK_CURRENT_REG
  | NVIC_PRI (registerIndex : Nat)
  deriving DecidableEq

/-- The state the drivers act on: the contents of the register cells (`regs r` is what a
read of `r` returns), the stores performed so far, oldest first, the file-scope
variable `g_SysTickCallBackPtr` of `SysTick.c` (a function address, `0` for `NULL_PTR`),
and the calls made through that pointer so far, oldest first (the address called). -/
structure Machine where
  regs : Reg → Nat
  writes : List (Reg × Nat)
  g_SysTickCallBackPtr : Nat
  calls : List Nat

/-- Number of values of a `uint32`. -/
def UINT32_MOD : Nat := 4294967296

/-- A volatile read of a register. -/
def Machine.read (m : Machine) (r : Reg) : Nat := m.regs r

/-- A volatile store of `v` into the 32-bit register `r`: the cell keeps `v` modulo `2 ^ 32`
and the store is appended to the record of stores. -/
def Machine.write (m : Machine) (r : Reg) (v : Nat) : Machine :=
  { m with
    regs := fun x => if x = r then v % UINT32_MOD else m.regs x
    writes := m.writes ++ [(r, v % UINT32_MOD)] }

/-- Every register cell holds a 32-bit value. -/
def Machine.WF (m : Machine) : Prop := ∀ r, m.regs r < UINT32_MOD

/-- The C expression `x << n` as a 32-bit pattern (bits shifted past bit 31 are lost).
Where the left operand is an `int` and the shift reaches bit 31, as in `1 << 31` or
`7 << 29`, this is the pattern a two's-complement target produces, which the conversion to
`uint32` in the enclosing assignment keeps. -/
def shl32 (x n : Nat) : Nat := (x <<< n) % UINT32_MOD

/-- The C expression `~x` on a 32-bit operand. -/
def not32 (x : Nat) : Nat := 4294967295 ^^^ (x % UINT32_MOD)

/-! ## NVIC.c -/

/-- `void NVIC_EnableIRQ(NVIC_IRQType IRQ_Num)`; `IRQ_Num` is a `uint8`. -/
def NVIC_EnableIRQ (IRQ_Num : Nat) (m : Machine) : Machine :=
  if IRQ_Num < 32 then
    m.write .NVIC_EN0_REG (m.read .NVIC_EN0_REG ||| shl32 1 IRQ_Num)
  else if IRQ_Num < 64 then
    m.write .NVIC_EN1_REG (m.read .NVIC_EN1_REG ||| shl32 1 (IRQ_Num - 32))
  else if IRQ_Num < 96 then
    m.write .NVIC_EN2_REG (m.read .NVIC_EN2_REG ||| shl32 1 (IRQ_Num - 64))
  else if IRQ_Num < 128 then
    m.write .NVIC_EN3_REG (m.read .NVIC_EN3_REG ||| shl32 1 (IRQ_Num - 96))
  else
    m

/-- `void NVIC_DisableIRQ(NVIC_IRQType IRQ_Num)`; `IRQ_Num` is a `uint8`.  Each branch is
the compound assignment `NVIC_DISn_REG |= (1 << ...)`: a read of the clear-enable register
followed by a store of the value read OR-ed with the bit. -/
def NVIC_DisableIRQ (IRQ_Num : Nat) (m : Machine) : Machine :=
  if IRQ_Num < 32 then
    m.write .NVIC_DIS0_REG (m.read .NVIC_DIS0_REG ||| shl32 1 IRQ_Num)
  else if IRQ_Num < 64 then
    m.write .NVIC_DIS1_REG (m.read .NVIC_DIS1_REG ||| shl32 1 (IRQ_Num - 32))
  else if IRQ_Num < 96 then
    m.write .NVIC_DIS2_REG (m.read .NVIC_DIS2_REG ||| shl32 1 (IRQ_Num - 64))
  else if IRQ_Num < 128 then
    m.write .NVIC_DIS3_REG (m.read .NVIC_DIS3_REG ||| shl32 1 (IRQ_Num - 96))
  else
    m

/-- `void NVIC_SetPriorityIRQ(NVIC_IRQType IRQ_Num, NVIC_IRQPriorityType IRQ_Priority)`;
both parameters are `uint8`, as are the locals `registerIndex`, `irqPos` and `bitOffset`.
The body has no test on `IRQ_Num`; it performs two stores to the target word, the first
clearing the field and the second OR-ing the shifted priority in. -/
def NVIC_SetPriorityIRQ (IRQ_Num IRQ_Priority : Nat) (m : Machine) : Machine :=
  let registerIndex := (IRQ_Num / 4) % 256
  let irqPos := (IRQ_Num % 4) % 256
  let targetReg := Reg.NVIC_PRI registerIndex
  let bitOffset :=
    match irqPos with
    | 0 => 5
    | 1 => 13
    | 2 => 21
    | 3 => 29
    | _ => 0
  let mask := 7
  let m1 := m.write targetReg (m.read targetReg &&& not32 (shl32 mask bitOffset))
  m1.write targetReg (m1.read targetReg ||| shl32 IRQ_Priority bitOffset)

/-- The enumeration `NVIC_ExceptionType` of `NVIC.h`. -/
inductive NVIC_ExceptionType where
  | EXCEPTION_RESET_TYPE
  | EXCEPTION_NMI_TYPE
  | EXCEPTION_HARD_FAULT_TYPE
  | EXCEPTION_MEM_FAULT_TYPE
  | EXCEPTION_BUS_FAULT_TYPE
  | EXCEPTION_USAGE_FAULT_TYPE
  | EXCEPTION_SVC_TYPE
  | EXCEPTION_DEBUG_MONITOR_TYPE
  | EXCEPTION_PEND_SV_TYPE
  | EXCEPTION_SYSTICK_TYPE
  deriving DecidableEq

open NVIC_ExceptionType

/-! Preprocessor definitions of `NVIC.h`. -/

def MEM_FAULT_PRIORITY_MASK : Nat := 0x000000E0
def MEM_FAULT_PRIORITY_BITS_POS : Nat := 5
def BUS_FAULT_PRIORITY_MASK : Nat := 0x0000E000
def BUS_FAULT_PRIORITY_BITS_POS : Nat := 13
def USAGE_FAULT_PRIORITY_MASK : Nat := 0x00E00000
def USAGE_FAULT_PRIORITY_BITS_POS : Nat := 21
def SVC_PRIORITY_MASK : Nat := 0xE0000000
def SVC_PRIORITY_BITS_POS : Nat := 29
def DEBUG_MONITOR_PRIORITY_MASK : Nat := 0x000000E0
def DEBUG_MONITOR_PRIORITY_BITS_POS : Nat := 5
def PENDSV_PRIORITY_MASK : Nat := 0x00E00000
def PENDSV_PRIORITY_BITS_POS : Nat := 21
def SYSTICK_PRIORITY_MASK : Nat := 0xE0000000
def SYSTICK_PRIORITY_BITS_POS : Nat := 29
def MEM_FAULT_ENABLE_MASK : Nat := 0x00010000
def BUS_FAULT_ENABLE_MASK : Nat := 0x00020000
def USAGE_FAULT_ENABLE_MASK : Nat := 0x00040000

/-- `void NVIC_EnableException(NVIC_ExceptionType Exception_Num)`. -/
def NVIC_EnableException (Exception_Num : NVIC_ExceptionType) (m : Machine) : Machine :=
  match Exception_Num with
  | EXCEPTION_MEM_FAULT_TYPE =>
    m.write .NVIC_SYSTEM_SYSHNDCTRL (m.read .NVIC_SYSTEM_SYSHNDCTRL ||| MEM_FAULT_ENABLE_MASK)
  | EXCEPTION_BUS_FAULT_TYPE =>
    m.write .NVIC_SYSTEM_SYSHNDCTRL (m.read .NVIC_SYSTEM_SYSHNDCTRL ||| BUS_FAULT_ENABLE_MASK)
  | EXCEPTION_USAGE_FAULT_TYPE =>
    m.write .NVIC_SYSTEM_SYSHNDCTRL (m.read .NVIC_SYSTEM_SYSHNDCTRL ||| USAGE_FAULT_ENABLE_MASK)
  | _ => m

/-- `void NVIC_DisableException(NVIC_ExceptionType Exception_Num)`. -/
def NVIC_DisableException (Exception_Num : NVIC_ExceptionType) (m : Machine) : Machine :=
  match Exception_Num with
  | EXCEPTION_MEM_FAULT_TYPE =>
    m.write .NVIC_SYSTEM_SYSHNDCTRL
      (m.read .NVIC_SYSTEM_SYSHNDCTRL &&& not32 MEM_FAULT_ENABLE_MASK)
  | EXCEPTION_BUS_FAULT_TYPE =>
    m.write .NVIC_SYSTEM_SYSHNDCTRL
      (m.read .NVIC_SYSTEM_SYSHNDCTRL &&& not32 BUS_FAULT_ENABLE_MASK)
  | EXCEPTION_USAGE_FAULT_TYPE =>
    m.write .NVIC_SYSTEM_SYSHNDCTRL
      (m.read .NVIC_SYSTEM_SYSHNDCTRL &&& not32 USAGE_FAULT_ENABLE_MASK)
  | _ => m

/-- `void NVIC_SetPriorityException(NVIC_ExceptionType Exception_Num,
NVIC_ExceptionPriorityType Exception_Priority)`; `Exception_Priority` is a `uint8`. -/
def NVIC_SetPriorityException (Exception_Num : NVIC_ExceptionType)
    (Exception_Priority : Nat) (m : Machine) : Machine :=
  match Exception_Num with
  | EXCEPTION_MEM_FAULT_TYPE =>
    m.write .NVIC_SYSTEM_PRI1_REG
      ((m.read .NVIC_SYSTEM_PRI1_REG &&& not32 MEM_FAULT_PRIORITY_MASK)
        ||| shl32 Exception_Priority MEM_FAULT_PRIORITY_BITS_POS)
  | EXCEPTION_BUS_FAULT_TYPE =>
    m.write .NVIC_SYSTEM_PRI1_REG
      ((m.read .NVIC_SYSTEM_PRI1_REG &&& not32 BUS_FAULT_PRIORITY_MASK)
        ||| shl32 Exception_Priority BUS_FAULT_PRIORITY_BITS_POS)
  | EXCEPTION_USAGE_FAULT_TYPE =>
    m.write .NVIC_SYSTEM_PRI1_REG
      ((m.read .NVIC_SYSTEM_PRI1_REG &&& not32 USAGE_FAULT_PRIORITY_MASK)
        ||| shl32 Exception_Priority USAGE_FAULT_PRIORITY_BITS_POS)
  | EXCEPTION_SVC_TYPE =>
    m.write .NVIC_SYSTEM_PRI2_REG
      ((m.read .NVIC_SYSTEM_PRI2_REG &&& not32 SVC_PRIORITY_MASK)
        ||| shl32 Exception_Priority SVC_PRIORITY_BITS_POS)
  | EXCEPTION_DEBUG_MONITOR_TYPE =>
    m.write .NVIC_SYSTEM_PRI3_REG
      ((m.read .NVIC_SYSTEM_PRI3_REG &&& not32 DEBUG_MONITOR_PRIORITY_MASK)
        ||| shl32 Exception_Priority DEBUG_MONITOR_PRIORITY_BITS_POS)
  | EXCEPTION_PEND_SV_TYPE =>
    m.write .NVIC_SYSTEM_PRI3_REG
      ((m.read .NVIC_SYSTEM_PRI3_REG &&& not32 PENDSV_PRIORITY_MASK)
        ||| shl32 Exception_Priority PENDSV_PRIORITY_BITS_POS)
  | EXCEPTION_SYSTICK_TYPE =>
    m.write .NVIC_SYSTEM_PRI3_REG
      ((m.read .NVIC_SYSTEM_PRI3_REG &&& not32 SYSTICK_PRIORITY_MASK)
        ||| shl32 Exception_Priority SYSTICK_PRIORITY_BITS_POS)
  | _ => m

/-! ## SysTick.c -/

/-- The local `uint32 ticks = (a_TimeInMilliSeconds * 16000) - 1;` of `SysTick_Init` and
`SysTick_StartBusyWait`: the `uint16` argument is promoted to `int`, the arithmetic is done
on `int`, and the result is converted to `uint32`. -/
def SysTick_ticks (a_TimeInMilliSeconds : Nat) : Nat :=
  ((((a_TimeInMilliSeconds : Int) * 16000) - 1) % 4294967296).toNat

/-- `void SysTick_Init(uint16 a_TimeInMilliSeconds)`. -/
def SysTick_Init (a_TimeInMilliSeconds : Nat) (m : Machine) : Machine :=
  let ticks := SysTick_ticks a_TimeInMilliSeconds
  let m1 := m.write .SYSTICK_CTRL_REG 0
  let m2 := m1.write .SYSTICK_RELOAD_REG ticks
  let m3 := m2.write .SYSTICK_CURRENT_REG 0
  m3.write .SYSTICK_CTRL_REG 0x07

/-- Modelled from the spec: `NULL_PTR` comes from `std_types.h`, which is not among the
sources; it is the null function address, the "none" value of the callback slot. -/
def NULL_PTR : Nat := 0

/-- One access of the register bus, as `SysTick_StartBusyWait` performs them: a store of a
value into a register, or a load that returned a value. -/
inductive BusEvent where
  | store (r : Reg) (v : Nat)
  | load (r : Reg) (v : Nat)
  deriving DecidableEq

/-- A run of `SysTick_StartBusyWait` for a bounded number of polls: the machine, the bus
accesses performed so far in order, and whether the function has returned. -/
structure BusyWaitRun where
  m : Machine
  trace : List BusEvent
  returned : Bool

/-- A store during a run of `SysTick_StartBusyWait`. -/
def BusyWaitRun.store (s : BusyWaitRun) (r : Reg) (v : Nat) : BusyWaitRun :=
  { s with m := s.m.write r v, trace := s.trace ++ [BusEvent.store r (v % UINT32_MOD)] }

/-- A load during a run of `SysTick_StartBusyWait` to which the hardware answered `v`. -/
def BusyWaitRun.load (s : BusyWaitRun) (r : Reg) (v : Nat) : BusyWaitRun :=
  { s with trace := s.trace ++ [BusEvent.load r v] }

/-- The loop `while((SYSTICK_CTRL_REG & 0x00010000) == 0);` of `SysTick_StartBusyWait`.
The control register is changed by the timer hardware while the loop runs, so the value of
each read is given from outside: `hw k` is what the `k`-th read of the control register
returns.  At most `fuel` reads are performed; `returned` is set when the loop is left. -/
def SysTick_pollCountFlag (hw : Nat → Nat) : Nat → Nat → BusyWaitRun → BusyWaitRun
  | 0, _, s => s
  | fuel + 1, k, s =>
    let s1 := s.load .SYSTICK_CTRL_REG (hw k)
    if hw k &&& 0x00010000 = 0 then
      SysTick_pollCountFlag hw fuel (k + 1) s1
    else
      { s1 with returned := true }

/-- `void SysTick_StartBusyWait(uint16 a_TimeInMilliSeconds)`, run for at most `fuel`
reads of the control register in its polling loop, `hw` giving the values those reads
return.  When the polls run out before the loop is left, the run stops inside the loop
with `returned = false`. -/
def SysTick_StartBusyWait (a_TimeInMilliSeconds : Nat) (hw : Nat → Nat) (fuel : Nat)
    (m : Machine) : BusyWaitRun :=
  let ticks := SysTick_ticks a_TimeInMilliSeconds
  let s0 : BusyWaitRun := { m := m, trace := [], returned := false }
  let s1 := s0.store .SYSTICK_CTRL_REG 0
  let s2 := s1.store .SYSTICK_RELOAD_REG ticks
  let s3 := s2.store .SYSTICK_CURRENT_REG 0
  let s4 := s3.store .SYSTICK_CTRL_REG 0x05
  let s5 := SysTick_pollCountFlag hw fuel 0 s4
  if s5.returned then s5.store .SYSTICK_CTRL_REG 0 else s5

/-- The run of `SysTick_StartBusyWait` at the point where its polling loop is entered:
the four stores of the set-up have been performed. -/
def busyWaitArmed (a_TimeInMilliSeconds : Nat) (m : Machine) : BusyWaitRun :=
  { m := (((m.write .SYSTICK_CTRL_REG 0).write .SYSTICK_RELOAD_REG
            (SysTick_ticks a_TimeInMilliSeconds)).write .SYSTICK_CURRENT_REG 0).write
            .SYSTICK_CTRL_REG 0x05
    trace := [BusEvent.store .SYSTICK_CTRL_REG 0,
      BusEvent.store .SYSTICK_RELOAD_REG (SysTick_ticks a_TimeInMilliSeconds),
      BusEvent.store .SYSTICK_CURRENT_REG 0, BusEvent.store .SYSTICK_CTRL_REG 0x05]
    returned := false }

/-- `void SysTick_Handler(void)`.  The call through the pointer is recorded in `calls`;
what the called function does is outside the driver. -/
def SysTick_Handler (m : Machine) : Machine :=
  if m.g_SysTickCallBackPtr ≠ NULL_PTR then
    { m with calls := m.calls ++ [m.g_SysTickCallBackPtr] }
  else
    m

/-- `void SysTick_SetCallBack(volatile void (*Ptr2Func)(void))`. -/
def SysTick_SetCallBack (Ptr2Func : Nat) (m : Machine) : Machine :=
  { m with g_SysTickCallBackPtr := Ptr2Func }

/-- `void SysTick_Stop(void)`: `SYSTICK_CTRL_REG &= ~0x01;`. -/
def SysTick_Stop (m : Machine) : Machine :=
  m.write .SYSTICK_CTRL_REG (m.read .SYSTICK_CTRL_REG &&& not32 0x01)

/-- `void SysTick_Start(void)`: `SYSTICK_CTRL_REG |= 0x01;`. -/
def SysTick_Start (m : Machine) : Machine :=
  m.write .SYSTICK_CTRL_REG (m.read .SYSTICK_CTRL_REG ||| 0x01)

/-- `void SysTick_DeInit(void)`. -/
def SysTick_DeInit (m : Machine) : Machine :=
  let m1 := m.write .SYSTICK_CTRL_REG 0
  let m2 := m1.write .SYSTICK_RELOAD_REG 0
  m2.write .SYSTICK_CURRENT_REG 0

/-- The state at program start: `g_SysTickCallBackPtr` holds its initialiser `NULL_PTR`,
nothing has been stored or called yet, and the registers read `regs`. -/
def startupMachine (regs : Reg → Nat) : Machine :=
  { regs := regs, writes := [], g_SysTickCallBackPtr := NULL_PTR, calls := [] }

/-- The stores of a bus trace that come before its first load, as register/value pairs. -/
def storesBeforeFirstLoad : List BusEvent → List (Reg × Nat)
  | BusEvent.store r v :: rest => (r, v) :: storesBeforeFirstLoad rest
  | _ => []

/-! ## Vocabulary of the specification -/

/-- The set-enable register of bank `k` (`k = 0 .. 3`). -/
def setEnableReg : Nat → Reg
  | 0 => .NVIC_EN0_REG
  | 1 => .NVIC_EN1_REG
  | 2 => .NVIC_EN2_REG
  | _ => .NVIC_EN3_REG

/-- The clear-enable register of bank `k` (`k = 0 .. 3`). -/
def clearEnableReg : Nat → Reg
  | 0 => .NVIC_DIS0_REG
  | 1 => .NVIC_DIS1_REG
  | 2 => .NVIC_DIS2_REG
  | _ => .NVIC_DIS3_REG

/-- The 3-bit field of the word `w` that starts at bit `off`. -/
def field3 (w off : Nat) : Nat := (w >>> off) % 8

/-- Bit `i` lies in the 3-bit field that starts at bit `off`. -/
def inField3 (off i : Nat) : Prop := off ≤ i ∧ i < off + 3

instance (off i : Nat) : Decidable (inField3 off i) := by
  unfold inField3
  exact inferInstance

/-- The priority field that the specification designates for each exception, as the
register holding it and the bit offset of the 3-bit field; `none` for the exceptions that
have no priority field. -/
def designatedField : NVIC_ExceptionType → Option (Reg × Nat)
  | EXCEPTION_MEM_FAULT_TYPE => some (.NVIC_SYSTEM_PRI1_REG, 5)
  | EXCEPTION_BUS_FAULT_TYPE => some (.NVIC_SYSTEM_PRI1_REG, 13)
  | EXCEPTION_USAGE_FAULT_TYPE => some (.NVIC_SYSTEM_PRI1_REG, 21)
  | EXCEPTION_SVC_TYPE => some (.NVIC_SYSTEM_PRI2_REG, 29)
  | EXCEPTION_DEBUG_MONITOR_TYPE => some (.NVIC_SYSTEM_PRI3_REG, 5)
  | EXCEPTION_PEND_SV_TYPE => some (.NVIC_SYSTEM_PRI3_REG, 21)
  | EXCEPTION_SYSTICK_TYPE => some (.NVIC_SYSTEM_PRI3_REG, 29)
  | EXCEPTION_RESET_TYPE => none
  | EXCEPTION_NMI_TYPE => none
  | EXCEPTION_HARD_FAULT_TYPE => none

/-- The enable bit in the system-handler control register of each exception that has
one. -/
def enableBit : NVIC_ExceptionType → Option Nat
  | EXCEPTION_MEM_FAULT_TYPE => some 16
  | EXCEPTION_BUS_FAULT_TYPE => some 17
  | EXCEPTION_USAGE_FAULT_TYPE => some 18
  | _ => none

/-- A machine whose registers all read zero. -/
def zeroMachine : Machine :=
  { regs := fun _ => 0, writes := [], g_SysTickCallBackPtr := 0, calls := [] }

/-- A machine in which register `r` reads `v` and every other register reads zero. -/
def oneRegMachine (r : Reg) (v : Nat) : Machine :=
  { regs := fun x => if x = r then v else 0, writes := [], g_SysTickCallBackPtr := 0,
    calls := [] }

/-! ## Word-level lemmas -/

theorem one_shl_lt (j : Nat) (h : j < 32) : 1 <<< j < UINT32_MOD := by
  have : j = 0 ∨ j = 1 ∨ j = 2 ∨ j = 3 ∨ j = 4 ∨ j = 5 ∨ j = 6 ∨ j = 7 ∨ j = 8 ∨ j = 9 ∨
      j = 10 ∨ j = 11 ∨ j = 12 ∨ j = 13 ∨ j = 14 ∨ j = 15 ∨ j = 16 ∨ j = 17 ∨ j = 18 ∨
      j = 19 ∨ j = 20 ∨ j = 21 ∨ j = 22 ∨ j = 23 ∨ j = 24 ∨ j = 25 ∨ j = 26 ∨ j = 27 ∨
      j = 28 ∨ j = 29 ∨ j = 30 ∨ j = 31 := by omega
  rcases this with h | h | h | h | h | h | h | h | h | h | h | h | h | h | h | h | h | h |
    h | h | h | h | h | h | h | h | h | h | h | h | h | h <;> subst h <;> decide

theorem shl32_one (j : Nat) (h : j < 32) : shl32 1 j = 1 <<< j := by
  unfold shl32
  exact Nat.mod_eq_of_lt (one_shl_lt j h)

theorem or_lt_uint32 (a b : Nat) (ha : a < UINT32_MOD) (hb : b < UINT32_MOD) :
    a ||| b < UINT32_MOD := by
  have h : UINT32_MOD = 2 ^ 32 := by decide
  rw [h] at *
  exact Nat.or_lt_two_pow ha hb

theorem testBit_of_lt_uint32 (x i : Nat) (hx : x < UINT32_MOD) (hi : 32 ≤ i) :
    x.testBit i = false := by
  apply Nat.testBit_lt_two_pow
  have h32 : UINT32_MOD = 2 ^ 32 := by decide
  calc x < 2 ^ 32 := h32 ▸ hx
    _ ≤ 2 ^ i := Nat.pow_le_pow_right (by decide) hi

theorem testBit_mod_uint32 (x i : Nat) :
    (x % UINT32_MOD).testBit i = (decide (i < 32) && x.testBit i) := by
  have h32 : UINT32_MOD = 2 ^ 32 := by decide
  rw [h32, Nat.testBit_mod_two_pow]

theorem testBit_seven (k : Nat) : (7 : Nat).testBit k = decide (k < 3) := by
  have h : (7 : Nat) = 2 ^ 3 - 1 := by decide
  rw [h, Nat.testBit_two_pow_sub_one]

theorem testBit_shl32 (x n i : Nat) :
    (shl32 x n).testBit i = (decide (i < 32) && (decide (n ≤ i) && x.testBit (i - n))) := by
  unfold shl32
  rw [testBit_mod_uint32, Nat.testBit_shiftLeft]

theorem testBit_not32 (x i : Nat) :
    (not32 x).testBit i = (decide (i < 32) && !x.testBit i) := by
  unfold not32
  have h : (4294967295 : Nat) = 2 ^ 32 - 1 := by decide
  rw [Nat.testBit_xor, testBit_mod_uint32, h, Nat.testBit_two_pow_sub_one]
  by_cases hi : i < 32 <;> simp [hi]

theorem shl32_lt (x n : Nat) : shl32 x n < UINT32_MOD := by
  unfold shl32
  exact Nat.mod_lt _ (by decide)

theorem and_lt_uint32 (a b : Nat) (ha : a < UINT32_MOD) : a &&& b < UINT32_MOD :=
  Nat.lt_of_le_of_lt Nat.and_le_left ha

/-- Bits of a word after its 3-bit field at `off` has been cleared and `p << off` OR-ed
in: inside the field the bits of `p`; elsewhere the old bit, OR-ed with whatever bit of `p`
the shift carries there. -/
theorem testBit_field_store (old p off i : Nat) (hold : old < UINT32_MOD)
    (hoff : off + 3 ≤ 32) :
    ((old &&& not32 (shl32 7 off)) ||| shl32 p off).testBit i
      = if inField3 off i then p.testBit (i - off)
        else (old.testBit i || (decide (off + 3 ≤ i ∧ i < 32) && p.testBit (i - off))) := by
  rw [Nat.testBit_or, Nat.testBit_and, testBit_not32, testBit_shl32, testBit_shl32,
    testBit_seven]
  unfold inField3
  by_cases h32 : i < 32
  · by_cases hlo : off ≤ i
    · by_cases hhi : i < off + 3
      · have h3 : i - off < 3 := by omega
        simp [h32, hlo, hhi, h3]
      · have h3 : ¬ i - off < 3 := by omega
        have h4 : off + 3 ≤ i := by omega
        simp [h32, hlo, hhi, h3, h4]
    · have hhi : ¬ off + 3 ≤ i := by omega
      simp [h32, hlo, hhi]
  · have ho : old.testBit i = false := testBit_of_lt_uint32 old i hold (by omega)
    have hin : ¬ (off ≤ i ∧ i < off + 3) := by omega
    simp [h32, ho, hin]

theorem field_store_lt (old p off : Nat) (hold : old < UINT32_MOD) :
    (old &&& not32 (shl32 7 off)) ||| shl32 p off < UINT32_MOD :=
  or_lt_uint32 _ _ (and_lt_uint32 _ _ hold) (shl32_lt _ _)

/-- After the field store with a 3-bit value `p`, the field reads `p` and every bit outside
the field is the old bit. -/
theorem field_store_spec (old p off : Nat) (hold : old < UINT32_MOD) (hoff : off + 3 ≤ 32)
    (hp : p < 8) :
    field3 ((old &&& not32 (shl32 7 off)) ||| shl32 p off) off = p
      ∧ ∀ i, ¬ inField3 off i →
          ((old &&& not32 (shl32 7 off)) ||| shl32 p off).testBit i = old.testBit i := by
  have hp3 : ∀ k, 3 ≤ k → p.testBit k = false := by
    intro k hk
    apply Nat.testBit_lt_two_pow
    calc p < 2 ^ 3 := hp
      _ ≤ 2 ^ k := Nat.pow_le_pow_right (by decide) hk
  constructor
  · apply Nat.eq_of_testBit_eq
    intro j
    unfold field3
    have h8 : (8 : Nat) = 2 ^ 3 := by decide
    rw [h8, Nat.testBit_mod_two_pow, Nat.testBit_shiftRight,
      testBit_field_store old p off (off + j) hold hoff]
    by_cases hj : j < 3
    · have hin : inField3 off (off + j) := ⟨by omega, by omega⟩
      simp [hj, hin]
    · simp [hj, hp3 j (by omega)]
  · intro i hi
    rw [testBit_field_store old p off i hold hoff, if_neg hi]
    by_cases h : off + 3 ≤ i
    · simp [hp3 (i - off) (by omega)]
    · simp [h]

theorem zeroMachine_WF : zeroMachine.WF := by
  intro r
  show (0 : Nat) < UINT32_MOD
  decide

theorem oneRegMachine_WF (r : Reg) (v : Nat) (hv : v < UINT32_MOD) :
    (oneRegMachine r v).WF := by
  intro x
  show (if x = r then v else 0) < UINT32_MOD
  split
  · exact hv
  · decide

/-! ## Stores -/

@[simp] theorem read_eq (m : Machine) (r : Reg) : m.read r = m.regs r := rfl

@[simp] theorem write_regs_same (m : Machine) (r : Reg) (v : Nat) :
    (m.write r v).regs r = v % UINT32_MOD := by
  simp [Machine.write]

@[simp] theorem write_regs_other (m : Machine) (r x : Reg) (v : Nat) (h : x ≠ r) :
    (m.write r v).regs x = m.regs x := by
  simp [Machine.write, h]

theorem write_WF (m : Machine) (r : Reg) (v : Nat) (hwf : m.WF) : (m.write r v).WF := by
  intro x
  by_cases h : x = r
  · subst h
    rw [write_regs_same]
    exact Nat.mod_lt _ (by decide)
  · rw [write_regs_other m r x v h]
    exact hwf x

/-- A store that clears the 3-bit field at `off` of register `r` and ORs `p << off` in,
for a 3-bit `p`: the field reads `p`, the other bits of `r` and all other registers keep
their values. -/
theorem write_field_spec (m : Machine) (r : Reg) (p off : Nat) (hwf : m.WF)
    (hoff : off + 3 ≤ 32) (hp : p < 8) :
    field3 ((m.write r ((m.read r &&& not32 (shl32 7 off)) ||| shl32 p off)).regs r) off = p
      ∧ (∀ i, ¬ inField3 off i →
          ((m.write r ((m.read r &&& not32 (shl32 7 off)) ||| shl32 p off)).regs r).testBit i
            = (m.regs r).testBit i)
      ∧ ∀ x, x ≠ r →
          (m.write r ((m.read r &&& not32 (shl32 7 off)) ||| shl32 p off)).regs x
            = m.regs x := by
  have hlt := field_store_lt (m.regs r) p off (hwf r)
  have hs := field_store_spec (m.regs r) p off (hwf r) hoff hp
  rw [write_regs_same, read_eq, Nat.mod_eq_of_lt hlt]
  exact ⟨hs.1, hs.2, fun x hx => write_regs_other m r x _ hx⟩

/-- The registers after `NVIC_SetPriorityIRQ`, for any `uint8` interrupt number and any
priority: only priority word `IRQ_Num / 4` is stored to, and it ends as the old word with
the field at `5 + 8 * (IRQ_Num % 4)` cleared and the shifted priority OR-ed in. -/
theorem NVIC_SetPriorityIRQ_regs (irq p : Nat) (m : Machine) (hirq : irq < 256)
    (hwf : m.WF) :
    (NVIC_SetPriorityIRQ irq p m).regs
      = (m.write (.NVIC_PRI (irq / 4))
          ((m.read (.NVIC_PRI (irq / 4)) &&& not32 (shl32 7 (5 + 8 * (irq % 4))))
            ||| shl32 p (5 + 8 * (irq % 4)))).regs := by
  have hidx : irq / 4 % 256 = irq / 4 := by omega
  have hand : ∀ off, (m.regs (.NVIC_PRI (irq / 4)) &&& not32 (shl32 7 off)) % UINT32_MOD
      = m.regs (.NVIC_PRI (irq / 4)) &&& not32 (shl32 7 off) :=
    fun off => Nat.mod_eq_of_lt (and_lt_uint32 _ _ (hwf _))
  have hpos : irq % 4 = 0 ∨ irq % 4 = 1 ∨ irq % 4 = 2 ∨ irq % 4 = 3 := by omega
  funext x
  unfold NVIC_SetPriorityIRQ
  rcases hpos with h | h | h | h <;>
    simp only [h, hidx, Nat.reduceMod, Nat.reduceMul, Nat.reduceAdd] <;>
    by_cases hx : x = .NVIC_PRI (irq / 4) <;>
    simp [Machine.write, hx, hand]

/-- The store of `NVIC_DisableIRQ`, for an irq in [0,127]: one store to the clear-enable
register of bank `irq / 32`, of the value read from it OR-ed with bit `irq % 32`. -/
theorem NVIC_DisableIRQ_writes (irq : Nat) (m : Machine) (hirq : irq < 128) (hwf : m.WF) :
    (NVIC_DisableIRQ irq m).writes
      = m.writes ++ [(clearEnableReg (irq / 32),
          m.regs (clearEnableReg (irq / 32)) ||| (1 <<< (irq % 32)))] := by
  have key : ∀ (r : Reg) (j : Nat), j < 32 →
      (m.write r (m.read r ||| shl32 1 j)).writes
        = m.writes ++ [(r, m.regs r ||| (1 <<< j))] := by
    intro r j hj
    simp only [Machine.write, Machine.read, shl32_one j hj]
    rw [Nat.mod_eq_of_lt (or_lt_uint32 _ _ (hwf r) (one_shl_lt j hj))]
  unfold NVIC_DisableIRQ
  by_cases h0 : irq < 32
  · have hd : irq / 32 = 0 := by omega
    have hm : irq % 32 = irq := by omega
    rw [if_pos h0, hd, hm]
    exact key _ irq h0
  · by_cases h1 : irq < 64
    · have hd : irq / 32 = 1 := by omega
      have hm : irq % 32 = irq - 32 := by omega
      rw [if_neg h0, if_pos h1, hd, hm]
      exact key _ (irq - 32) (by omega)
    · by_cases h2 : irq < 96
      · have hd : irq / 32 = 2 := by omega
        have hm : irq % 32 = irq - 64 := by omega
        rw [if_neg h0, if_neg h1, if_pos h2, hd, hm]
        exact key _ (irq - 64) (by omega)
      · have hd : irq / 32 = 3 := by omega
        have hm : irq % 32 = irq - 96 := by omega
        rw [if_neg h0, if_neg h1, if_neg h2, if_pos hirq, hd, hm]
        exact key _ (irq - 96) (by omega)

/-- Each priority mask of `NVIC.h` is the 3-bit mask `0x7` shifted to the matching
`*_PRIORITY_BITS_POS`. -/
theorem priority_mask_eq :
    MEM_FAULT_PRIORITY_MASK = shl32 7 5 ∧ BUS_FAULT_PRIORITY_MASK = shl32 7 13
      ∧ USAGE_FAULT_PRIORITY_MASK = shl32 7 21 ∧ SVC_PRIORITY_MASK = shl32 7 29
      ∧ DEBUG_MONITOR_PRIORITY_MASK = shl32 7 5 ∧ PENDSV_PRIORITY_MASK = shl32 7 21
      ∧ SYSTICK_PRIORITY_MASK = shl32 7 29 := by
  decide

theorem enable_mask_eq :
    MEM_FAULT_ENABLE_MASK = 2 ^ 16 ∧ BUS_FAULT_ENABLE_MASK = 2 ^ 17
      ∧ USAGE_FAULT_ENABLE_MASK = 2 ^ 18 := by
  decide

/-- Bits of a register after the store `r |= 2 ^ b`. -/
theorem testBit_write_or_bit (m : Machine) (r : Reg) (b i : Nat) (hb : b < 32)
    (hwf : m.WF) :
    ((m.write r (m.read r ||| 2 ^ b)).regs r).testBit i
      = (decide (i = b) || (m.regs r).testBit i) := by
  rw [write_regs_same, read_eq, testBit_mod_uint32, Nat.testBit_or, Nat.testBit_two_pow]
  by_cases h32 : i < 32
  · by_cases hib : i = b
    · subst hib
      simp [h32]
    · have hbi : ¬ b = i := fun h => hib h.symm
      simp [h32, hib, hbi]
  · have ho : (m.regs r).testBit i = false := testBit_of_lt_uint32 _ i (hwf r) (by omega)
    have hib : ¬ i = b := by omega
    simp [h32, ho, hib]

/-- Bits of a register after the store `r &= ~(2 ^ b)`. -/
theorem testBit_write_andnot_bit (m : Machine) (r : Reg) (b i : Nat) (hb : b < 32)
    (hwf : m.WF) :
    ((m.write r (m.read r &&& not32 (2 ^ b))).regs r).testBit i
      = (!decide (i = b) && (m.regs r).testBit i) := by
  rw [write_regs_same, read_eq, testBit_mod_uint32, Nat.testBit_and, testBit_not32,
    Nat.testBit_two_pow]
  by_cases h32 : i < 32
  · by_cases hib : i = b
    · subst hib
      simp [h32]
    · have hbi : ¬ b = i := fun h => hib h.symm
      simp [h32, hib, hbi]
  · have ho : (m.regs r).testBit i = false := testBit_of_lt_uint32 _ i (hwf r) (by omega)
    simp [h32, ho]

theorem SysTick_ticks_eq (d : Nat) (hd : 1 ≤ d) (hmax : d * 16000 ≤ 2 ^ 32) :
    SysTick_ticks d = d * 16000 - 1 := by
  unfold SysTick_ticks
  have hmax2 : d * 16000 ≤ 4294967296 := hmax
  omega

/-! ## Priority words under any 8-bit priority -/

theorem testBit_uint8 (p k : Nat) (hp : p < 256) (hk : 8 ≤ k) : p.testBit k = false := by
  apply Nat.testBit_lt_two_pow
  calc p < 2 ^ 8 := hp
    _ ≤ 2 ^ k := Nat.pow_le_pow_right (by decide) hk

/-- The bits that `p << off` carries above the field are absent below the field's end and
from the eighth bit after its start on. -/
theorem spill_false (p off i : Nat) (hp : p < 256) (h : i < off + 3 ∨ off + 8 ≤ i) :
    (decide (off + 3 ≤ i ∧ i < 32) && p.testBit (i - off)) = false := by
  rcases h with h | h
  · have : ¬ (off + 3 ≤ i ∧ i < 32) := by omega
    simp [this]
  · rw [testBit_uint8 p (i - off) hp (by omega)]
    simp

/-- Storing the same priority into the same field a second time changes nothing. -/
theorem field_store_idem (old p off : Nat) (hold : old < UINT32_MOD) (hoff : off + 3 ≤ 32) :
    ((((old &&& not32 (shl32 7 off)) ||| shl32 p off) &&& not32 (shl32 7 off))
        ||| shl32 p off)
      = ((old &&& not32 (shl32 7 off)) ||| shl32 p off) := by
  apply Nat.eq_of_testBit_eq
  intro i
  rw [testBit_field_store _ p off i (field_store_lt old p off hold) hoff,
    testBit_field_store old p off i hold hoff]
  by_cases h : inField3 off i
  · simp [h]
  · simp only [if_neg h]
    cases old.testBit i <;> cases (decide (off + 3 ≤ i ∧ i < 32) && p.testBit (i - off)) <;>
      rfl

/-- Field stores at two different byte lanes of one word commute, for 8-bit priorities. -/
theorem field_store_comm (old p q offa offb : Nat) (hold : old < UINT32_MOD)
    (hoffa : offa + 3 ≤ 32) (hoffb : offb + 3 ≤ 32) (hp : p < 256) (hq : q < 256)
    (hsep : offa + 8 ≤ offb ∨ offb + 8 ≤ offa) :
    ((((old &&& not32 (shl32 7 offa)) ||| shl32 p offa) &&& not32 (shl32 7 offb))
        ||| shl32 q offb)
      = ((((old &&& not32 (shl32 7 offb)) ||| shl32 q offb) &&& not32 (shl32 7 offa))
        ||| shl32 p offa) := by
  apply Nat.eq_of_testBit_eq
  intro i
  rw [testBit_field_store _ q offb i (field_store_lt old p offa hold) hoffb,
    testBit_field_store old p offa i hold hoffa,
    testBit_field_store _ p offa i (field_store_lt old q offb hold) hoffa,
    testBit_field_store old q offb i hold hoffb]
  by_cases hA : inField3 offa i
  · have hB : ¬ inField3 offb i := by
      unfold inField3 at *
      omega
    have hs := spill_false q offb i hq (by unfold inField3 at hA; omega)
    simp only [if_pos hA, if_neg hB, hs, Bool.or_false]
  · by_cases hB : inField3 offb i
    · have hs := spill_false p offa i hp (by unfold inField3 at hB; omega)
      simp only [if_neg hA, if_pos hB, hs, Bool.or_false]
    · simp only [if_neg hA, if_neg hB]
      cases old.testBit i <;>
        cases (decide (offa + 3 ≤ i ∧ i < 32) && p.testBit (i - offa)) <;>
        cases (decide (offb + 3 ≤ i ∧ i < 32) && q.testBit (i - offb)) <;> rfl

/-- A field store with an 8-bit priority leaves the 3-bit field of every other byte lane of
the word as it was. -/
theorem field_store_other_field (old p off off2 : Nat) (hold : old < UINT32_MOD)
    (hoff : off + 3 ≤ 32) (hp : p < 256) (hsep : off2 + 8 ≤ off ∨ off + 8 ≤ off2) :
    field3 ((old &&& not32 (shl32 7 off)) ||| shl32 p off) off2 = field3 old off2 := by
  apply Nat.eq_of_testBit_eq
  intro j
  unfold field3
  have h8 : (8 : Nat) = 2 ^ 3 := by decide
  rw [h8, Nat.testBit_mod_two_pow, Nat.testBit_mod_two_pow, Nat.testBit_shiftRight,
    Nat.testBit_shiftRight, testBit_field_store old p off (off2 + j) hold hoff]
  by_cases hj : j < 3
  · have hin : ¬ inField3 off (off2 + j) := by
      unfold inField3
      omega
    have hs := spill_false p off (off2 + j) hp (by omega)
    simp only [if_neg hin, hs, Bool.or_false]
  · simp [hj]

/-- A field store with any priority leaves the field reading the priority modulo 8. -/
theorem field_store_field (old p off : Nat) (hold : old < UINT32_MOD) (hoff : off + 3 ≤ 32) :
    field3 ((old &&& not32 (shl32 7 off)) ||| shl32 p off) off = p % 8 := by
  apply Nat.eq_of_testBit_eq
  intro j
  unfold field3
  have h8 : (8 : Nat) = 2 ^ 3 := by decide
  rw [h8, Nat.testBit_mod_two_pow, Nat.testBit_mod_two_pow, Nat.testBit_shiftRight,
    testBit_field_store old p off (off + j) hold hoff]
  by_cases hj : j < 3
  · have hin : inField3 off (off + j) := ⟨by omega, by omega⟩
    simp [hj, hin]
  · simp [hj]

/-- A bit outside the field that a field store with an 8-bit priority changes is one of
the five bits that follow the field, inside the word. -/
theorem field_store_changed_bit (old p off i : Nat) (hold : old < UINT32_MOD)
    (hoff : off + 3 ≤ 32) (hp : p < 256) (hout : ¬ inField3 off i)
    (hne : ((old &&& not32 (shl32 7 off)) ||| shl32 p off).testBit i ≠ old.testBit i) :
    off + 3 ≤ i ∧ i < off + 8 ∧ i < 32 := by
  rw [testBit_field_store old p off i hold hoff, if_neg hout] at hne
  by_cases hs : off + 3 ≤ i ∧ i < off + 8 ∧ i < 32
  · exact hs
  · exfalso
    apply hne
    by_cases h8 : off + 8 ≤ i
    · rw [spill_false p off i hp (Or.inr h8)]
      simp
    · have : ¬ (off + 3 ≤ i ∧ i < 32) := by omega
      simp [this]

/-- The registers after `NVIC_SetPriorityIRQ`, register by register. -/
theorem NVIC_SetPriorityIRQ_regs_apply (irq p : Nat) (m : Machine) (x : Reg)
    (hirq : irq < 256) (hwf : m.WF) :
    (NVIC_SetPriorityIRQ irq p m).regs x
      = if x = .NVIC_PRI (irq / 4) then
          (m.regs (.NVIC_PRI (irq / 4)) &&& not32 (shl32 7 (5 + 8 * (irq % 4))))
            ||| shl32 p (5 + 8 * (irq % 4))
        else m.regs x := by
  rw [NVIC_SetPriorityIRQ_regs irq p m hirq hwf]
  by_cases hx : x = .NVIC_PRI (irq / 4)
  · subst hx
    rw [if_pos rfl, write_regs_same, read_eq]
    exact Nat.mod_eq_of_lt (field_store_lt _ _ _ (hwf _))
  · rw [if_neg hx, write_regs_other m _ x _ hx]

theorem NVIC_SetPriorityIRQ_WF (irq p : Nat) (m : Machine) (hirq : irq < 256)
    (hwf : m.WF) : (NVIC_SetPriorityIRQ irq p m).WF := by
  intro x
  rw [NVIC_SetPriorityIRQ_regs irq p m hirq hwf]
  exact write_WF m _ _ hwf x

/-! ## Callback slot -/

theorem SysTick_SetCallBack_calls (f : Nat) (m : Machine) :
    (SysTick_SetCallBack f m).calls = m.calls := rfl

theorem SysTick_SetCallBack_slot (f : Nat) (m : Machine) :
    (SysTick_SetCallBack f m).g_SysTickCallBackPtr = f := rfl

/-- Repeated handler runs with a non-null pointer in the slot: each run appends one call of
that pointer. -/
theorem SysTick_Handler_iterate_calls (f : Nat) (hf : f ≠ NULL_PTR) (n : Nat) :
    ∀ m : Machine, m.g_SysTickCallBackPtr = f →
      (SysTick_Handler^[n] m).calls = m.calls ++ List.replicate n f := by
  induction n with
  | zero => intro m _; simp
  | succ n ih =>
    intro m hm
    have hstep : SysTick_Handler m = { m with calls := m.calls ++ [f] } := by
      unfold SysTick_Handler
      rw [hm, if_pos hf]
    rw [Function.iterate_succ_apply, hstep]
    have h := ih { m with calls := m.calls ++ [f] } hm
    rw [h]
    simp [List.replicate_succ]

/-- Repeated handler runs with the null pointer in the slot change nothing. -/
theorem SysTick_Handler_iterate_null (n : Nat) :
    ∀ m : Machine, m.g_SysTickCallBackPtr = NULL_PTR → SysTick_Handler^[n] m = m := by
  induction n with
  | zero => intro m _; rfl
  | succ n ih =>
    intro m hm
    have hstep : SysTick_Handler m = m := by
      unfold SysTick_Handler
      rw [hm]
      simp
    rw [Function.iterate_succ_apply, hstep, ih m hm]

theorem foldl_SetCallBack_calls (gs : List Nat) :
    ∀ m : Machine, (gs.foldl (fun s g => SysTick_SetCallBack g s) m).calls = m.calls := by
  induction gs with
  | nil => intro m; rfl
  | cons g gs ih => intro m; rw [List.foldl_cons, ih]; rfl

/-! ## Busy wait -/

theorem and_count_flag_eq_zero (x : Nat) :
    x &&& 0x00010000 = 0 ↔ x.testBit 16 = false := by
  have h : (0x00010000 : Nat) = 2 ^ 16 := by decide
  rw [h, Nat.and_two_pow]
  cases x.testBit 16 <;> simp

theorem SysTick_ticks_lt (d : Nat) : SysTick_ticks d < UINT32_MOD := by
  unfold SysTick_ticks UINT32_MOD
  omega

/-- The loads of the polling loop: reads number `k`, `k + 1`, ... of the control
register, `n` of them. -/
theorem range_map_shift (g : Nat → BusEvent) (k n : Nat) :
    (List.range (n + 1)).map (fun j => g (k + j))
      = g k :: (List.range n).map (fun j => g (k + 1 + j)) := by
  rw [List.range_succ_eq_map, List.map_cons, List.map_map]
  congr 1
  apply List.map_congr_left
  intro j _
  show g (k + (j + 1)) = g (k + 1 + j)
  congr 1
  omega

theorem SysTick_pollCountFlag_m (hw : Nat → Nat) (fuel : Nat) :
    ∀ (k : Nat) (s : BusyWaitRun), (SysTick_pollCountFlag hw fuel k s).m = s.m := by
  induction fuel with
  | zero => intro k s; rfl
  | succ fuel ih =>
    intro k s
    unfold SysTick_pollCountFlag
    by_cases h : hw k &&& 0x00010000 = 0
    · simp only [h, if_true]
      rw [ih]
      rfl
    · simp only [h, if_false]
      rfl

/-- The loop leaves at the first read that has the count flag set, when that read is among
the `fuel` reads allowed. -/
theorem SysTick_pollCountFlag_first (hw : Nat → Nat) (n : Nat) :
    ∀ (fuel k : Nat) (s : BusyWaitRun), n < fuel → (hw (k + n)).testBit 16 = true →
      (∀ j, j < n → (hw (k + j)).testBit 16 = false) →
      SysTick_pollCountFlag hw fuel k s
        = { s with
            trace := s.trace
              ++ (List.range (n + 1)).map (fun j => BusEvent.load .SYSTICK_CTRL_REG (hw (k + j)))
            returned := true } := by
  induction n with
  | zero =>
    intro fuel k s hfuel hset _
    obtain ⟨fuel, rfl⟩ : ∃ f, fuel = f + 1 := ⟨fuel - 1, by omega⟩
    have hne : ¬ hw k &&& 0x00010000 = 0 := by
      rw [and_count_flag_eq_zero]
      simpa using hset
    unfold SysTick_pollCountFlag
    simp [hne, BusyWaitRun.load, List.range_succ]
  | succ n ih =>
    intro fuel k s hfuel hset hclear
    obtain ⟨fuel, rfl⟩ : ∃ f, fuel = f + 1 := ⟨fuel - 1, by omega⟩
    have h0 : hw k &&& 0x00010000 = 0 := by
      rw [and_count_flag_eq_zero]
      simpa using hclear 0 (by omega)
    unfold SysTick_pollCountFlag
    simp only [h0, if_true]
    rw [ih fuel (k + 1) _ (by omega)
      (by have : k + 1 + n = k + (n + 1) := by omega
          rw [this]; exact hset)
      (fun j hj => by
        have : k + 1 + j = k + (j + 1) := by omega
        rw [this]; exact hclear (j + 1) (by omega))]
    rw [range_map_shift (fun i => BusEvent.load .SYSTICK_CTRL_REG (hw i)) k (n + 1)]
    simp [BusyWaitRun.load]

/-- While no read has the count flag set the loop keeps reading. -/
theorem SysTick_pollCountFlag_none (hw : Nat → Nat) (fuel : Nat) :
    ∀ (k : Nat) (s : BusyWaitRun), (∀ j, j < fuel → (hw (k + j)).testBit 16 = false) →
      SysTick_pollCountFlag hw fuel k s
        = { s with
            trace := s.trace
              ++ (List.range fuel).map (fun j => BusEvent.load .SYSTICK_CTRL_REG (hw (k + j))) }
      := by
  induction fuel with
  | zero => intro k s _; simp [SysTick_pollCountFlag]
  | succ fuel ih =>
    intro k s hclear
    have h0 : hw k &&& 0x00010000 = 0 := by
      rw [and_count_flag_eq_zero]
      simpa using hclear 0 (by omega)
    unfold SysTick_pollCountFlag
    simp only [h0, if_true]
    rw [ih (k + 1) _ (fun j hj => by
        have : k + 1 + j = k + (j + 1) := by omega
        rw [this]; exact hclear (j + 1) (by omega))]
    rw [range_map_shift (fun i => BusEvent.load .SYSTICK_CTRL_REG (hw i)) k fuel]
    simp [BusyWaitRun.load]

/-- A loop that was left saw the count flag: there is a first read with the flag set. -/
theorem SysTick_pollCountFlag_returned (hw : Nat → Nat) (fuel : Nat) :
    ∀ (k : Nat) (s : BusyWaitRun), s.returned = false →
      (SysTick_pollCountFlag hw fuel k s).returned = true →
      ∃ n, n < fuel ∧ (hw (k + n)).testBit 16 = true
        ∧ ∀ j, j < n → (hw (k + j)).testBit 16 = false := by
  induction fuel with
  | zero =>
    intro k s hs hr
    simp [SysTick_pollCountFlag, hs] at hr
  | succ fuel ih =>
    intro k s hs hr
    by_cases h0 : hw k &&& 0x00010000 = 0
    · unfold SysTick_pollCountFlag at hr
      simp only [h0, if_true] at hr
      obtain ⟨n, hn, hset, hclear⟩ := ih (k + 1) _ (by simpa [BusyWaitRun.load] using hs) hr
      refine ⟨n + 1, by omega, ?_, ?_⟩
      · have : k + (n + 1) = k + 1 + n := by omega
        rw [this]; exact hset
      · intro j hj
        cases j with
        | zero => simpa using (and_count_flag_eq_zero (hw k)).mp h0
        | succ j =>
          have : k + (j + 1) = k + 1 + j := by omega
          rw [this]; exact hclear j (by omega)
    · refine ⟨0, by omega, ?_, fun j hj => absurd hj (by omega)⟩
      rw [and_count_flag_eq_zero] at h0
      simpa using h0

/-- A read with the count flag set among the reads allowed makes the loop leave. -/
theorem SysTick_pollCountFlag_leaves (hw : Nat → Nat) (fuel : Nat) :
    ∀ (k n : Nat) (s : BusyWaitRun), n < fuel → (hw (k + n)).testBit 16 = true →
      (SysTick_pollCountFlag hw fuel k s).returned = true := by
  induction fuel with
  | zero => intro k n s hn _; omega
  | succ fuel ih =>
    intro k n s hn hset
    unfold SysTick_pollCountFlag
    by_cases h0 : hw k &&& 0x00010000 = 0
    · simp only [h0, if_true]
      cases n with
      | zero =>
        rw [and_count_flag_eq_zero] at h0
        rw [Nat.add_zero] at hset
        rw [hset] at h0
        exact absurd h0 (by decide)
      | succ n =>
        apply ih (k + 1) n _ (by omega)
        have : k + 1 + n = k + (n + 1) := by omega
        rw [this]; exact hset
    · simp only [h0, if_false]

/-- `SysTick_StartBusyWait` is its set-up, then the polling loop, then (once the loop is
left) the store that disables the timer. -/
theorem SysTick_StartBusyWait_eq (d : Nat) (hw : Nat → Nat) (fuel : Nat) (m : Machine) :
    SysTick_StartBusyWait d hw fuel m
      = if (SysTick_pollCountFlag hw fuel 0 (busyWaitArmed d m)).returned then
          (SysTick_pollCountFlag hw fuel 0 (busyWaitArmed d m)).store .SYSTICK_CTRL_REG 0
        else SysTick_pollCountFlag hw fuel 0 (busyWaitArmed d m) := by
  have ht : SysTick_ticks d % UINT32_MOD = SysTick_ticks d :=
    Nat.mod_eq_of_lt (SysTick_ticks_lt d)
  have h0 : 0 % UINT32_MOD = 0 := by decide
  have h5 : 5 % UINT32_MOD = 5 := by decide
  simp only [SysTick_StartBusyWait, busyWaitArmed, BusyWaitRun.store, ht, h0, h5,
    List.nil_append, List.cons_append]

theorem SysTick_StartBusyWait_reload (d : Nat) (hw : Nat → Nat) (fuel : Nat)
    (m : Machine) :
    (SysTick_StartBusyWait d hw fuel m).m.regs .SYSTICK_RELOAD_REG = SysTick_ticks d := by
  have harmed : (busyWaitArmed d m).m.regs .SYSTICK_RELOAD_REG = SysTick_ticks d := by
    simp [busyWaitArmed, Machine.write, Nat.mod_eq_of_lt (SysTick_ticks_lt d)]
  rw [SysTick_StartBusyWait_eq]
  split
  · simp only [BusyWaitRun.store]
    rw [write_regs_other _ _ _ _ (by decide), SysTick_pollCountFlag_m]
    exact harmed
  · rw [SysTick_pollCountFlag_m]
    exact harmed

theorem SysTick_Init_reload (d : Nat) (m : Machine) :
    (SysTick_Init d m).regs .SYSTICK_RELOAD_REG = SysTick_ticks d := by
  simp [SysTick_Init, Machine.write, Nat.mod_eq_of_lt (SysTick_ticks_lt d)]

theorem storesBeforeFirstLoad_store (r : Reg) (v : Nat) (rest : List BusEvent) :
    storesBeforeFirstLoad (BusEvent.store r v :: rest) = (r, v) :: storesBeforeFirstLoad rest :=
  rfl

theorem storesBeforeFirstLoad_loads (g : Nat → Nat) (k : Nat) (tl : List BusEvent)
    (h : k = 0 → tl = []) :
    storesBeforeFirstLoad
        ((List.range k).map (fun j => BusEvent.load .SYSTICK_CTRL_REG (g j)) ++ tl) = [] := by
  cases k with
  | zero => simp [h rfl, storesBeforeFirstLoad]
  | succ k =>
    rw [List.range_succ_eq_map]
    simp [storesBeforeFirstLoad]

/-- The bus trace of `SysTick_StartBusyWait` is always the four stores of the set-up
followed by loads only, or by loads and then the final store. -/
theorem SysTick_StartBusyWait_stores_before_poll (d : Nat) (hw : Nat → Nat) (fuel : Nat)
    (m : Machine) :
    storesBeforeFirstLoad (SysTick_StartBusyWait d hw fuel m).trace
      = [(.SYSTICK_CTRL_REG, 0), (.SYSTICK_RELOAD_REG, SysTick_ticks d),
          (.SYSTICK_CURRENT_REG, 0), (.SYSTICK_CTRL_REG, 0x05)] := by
  rw [SysTick_StartBusyWait_eq]
  by_cases hr : (SysTick_pollCountFlag hw fuel 0 (busyWaitArmed d m)).returned = true
  · obtain ⟨n, hn, hset, hclear⟩ :=
      SysTick_pollCountFlag_returned hw fuel 0 (busyWaitArmed d m) rfl hr
    rw [if_pos hr, SysTick_pollCountFlag_first hw n fuel 0 (busyWaitArmed d m) hn hset hclear]
    simp only [BusyWaitRun.store, busyWaitArmed, Nat.zero_add, List.cons_append,
      List.nil_append, List.append_assoc]
    rw [storesBeforeFirstLoad_store, storesBeforeFirstLoad_store, storesBeforeFirstLoad_store,
      storesBeforeFirstLoad_store,
      storesBeforeFirstLoad_loads hw (n + 1) _ (fun h => absurd h (by omega))]
  · have hclear : ∀ j, j < fuel → (hw (0 + j)).testBit 16 = false := by
      intro j hj
      by_cases hb : (hw (0 + j)).testBit 16 = true
      · exact absurd (SysTick_pollCountFlag_leaves hw fuel 0 j _ hj hb) hr
      · simpa using hb
    rw [if_neg hr, SysTick_pollCountFlag_none hw fuel 0 (busyWaitArmed d m) hclear]
    simp only [busyWaitArmed, Nat.zero_add, List.cons_append, List.nil_append]
    have h := storesBeforeFirstLoad_loads hw fuel [] (fun _ => rfl)
    rw [List.append_nil] at h
    rw [storesBeforeFirstLoad_store, storesBeforeFirstLoad_store, storesBeforeFirstLoad_store,
      storesBeforeFirstLoad_store, h]

theorem testBit_one (i : Nat) : (1 : Nat).testBit i = decide (i = 0) := by
  have h : (1 : Nat) = 2 ^ 0 := by decide
  rw [h, Nat.testBit_two_pow]
  by_cases hi : i = 0
  · simp [hi]
  · have : ¬ 0 = i := fun h => hi h.symm
    simp [hi, this]

/-- Clearing bit 0 of a 32-bit word that has bit 0 set and setting it again gives the word
back. -/
theorem clear_set_bit0 (old : Nat) (hold : old < UINT32_MOD) (h0 : old.testBit 0 = true) :
    ((old &&& not32 0x01) % UINT32_MOD ||| 0x01) % UINT32_MOD = old := by
  apply Nat.eq_of_testBit_eq
  intro i
  rw [testBit_mod_uint32, Nat.testBit_or, testBit_mod_uint32, Nat.testBit_and,
    testBit_not32, testBit_one]
  by_cases h32 : i < 32
  · by_cases hi : i = 0
    · subst hi
      simp [h0]
    · simp [h32, hi]
  · rw [testBit_of_lt_uint32 old i hold (by omega)]
    simp [h32]

/-! ## System priority registers under any 8-bit priority -/

/-- The registers after `NVIC_SetPriorityException` for an exception that has a priority
field, register by register and for any priority: only the register holding the field is
stored to, and it ends as the old word with the field cleared and the shifted priority
OR-ed in. -/
theorem NVIC_SetPriorityException_regs_apply (e : NVIC_ExceptionType) (p : Nat)
    (m : Machine) (r : Reg) (off : Nat) (x : Reg)
    (hd : designatedField e = some (r, off)) (hwf : m.WF) :
    (NVIC_SetPriorityException e p m).regs x
      = if x = r then (m.regs r &&& not32 (shl32 7 off)) ||| shl32 p off
        else m.regs x := by
  have key : ∀ (R : Reg) (o : Nat),
      (m.write R ((m.read R &&& not32 (shl32 7 o)) ||| shl32 p o)).regs x
        = if x = R then (m.regs R &&& not32 (shl32 7 o)) ||| shl32 p o else m.regs x := by
    intro R o
    by_cases hx : x = R
    · subst hx
      rw [if_pos rfl, write_regs_same, read_eq]
      exact Nat.mod_eq_of_lt (field_store_lt _ _ _ (hwf _))
    · rw [if_neg hx, write_regs_other m _ x _ hx]
  cases e <;> simp [designatedField] at hd <;>
    (obtain ⟨hr, ho⟩ := hd
     subst hr
     subst ho
     simp only [NVIC_SetPriorityException, priority_mask_eq, MEM_FAULT_PRIORITY_BITS_POS,
       BUS_FAULT_PRIORITY_BITS_POS, USAGE_FAULT_PRIORITY_BITS_POS, SVC_PRIORITY_BITS_POS,
       DEBUG_MONITOR_PRIORITY_BITS_POS, PENDSV_PRIORITY_BITS_POS, SYSTICK_PRIORITY_BITS_POS]
     exact key _ _)

/-- Every designated priority field lies inside its 32-bit register. -/
theorem designatedField_inside (e : NVIC_ExceptionType) (r : Reg) (off : Nat)
    (hd : designatedField e = some (r, off)) : off + 3 ≤ 32 := by
  cases e <;> simp [designatedField] at hd <;> omega

/-- The designated fields of two different exceptions that share a register start at least
eight bits apart. -/
theorem designatedField_apart (e e2 : NVIC_ExceptionType) (r : Reg) (off off2 : Nat)
    (hd : designatedField e = some (r, off)) (hd2 : designatedField e2 = some (r, off2))
    (hne : e2 ≠ e) : off2 + 8 ≤ off ∨ off + 8 ≤ off2 := by
  cases e <;> cases e2 <;> simp [designatedField] at hd hd2 hne <;>
    (obtain ⟨hr, ho⟩ := hd
     obtain ⟨hr2, ho2⟩ := hd2
     first
       | omega
       | (subst hr; exact absurd hr2 (by decide)))

/-! ## Frame of the callback slot -/

theorem write_slot (m : Machine) (r : Reg) (v : Nat) :
    (m.write r v).g_SysTickCallBackPtr = m.g_SysTickCallBackPtr := rfl

theorem write_calls (m : Machine) (r : Reg) (v : Nat) : (m.write r v).calls = m.calls := rfl

theorem SysTick_StartBusyWait_slot (d : Nat) (hw : Nat → Nat) (fuel : Nat) (m : Machine) :
    (SysTick_StartBusyWait d hw fuel m).m.g_SysTickCallBackPtr = m.g_SysTickCallBackPtr := by
  rw [SysTick_StartBusyWait_eq]
  split
  · simp only [BusyWaitRun.store]
    rw [write_slot, SysTick_pollCountFlag_m]
    rfl
  · rw [SysTick_pollCountFlag_m]
    rfl

/-- A handler run with a non-null pointer in the slot records one call of it. -/
theorem SysTick_Handler_calls (m : Machine) (f : Nat) (hf : f ≠ NULL_PTR)
    (hm : m.g_SysTickCallBackPtr = f) : (SysTick_Handler m).calls = m.calls ++ [f] := by
  unfold SysTick_Handler
  rw [hm, if_pos hf]

theorem SysTick_Handler_frame (m : Machine) :
    (SysTick_Handler m).regs = m.regs ∧ (SysTick_Handler m).writes = m.writes
      ∧ (SysTick_Handler m).g_SysTickCallBackPtr = m.g_SysTickCallBackPtr := by
  unfold SysTick_Handler
  split <;> exact ⟨rfl, rfl, rfl⟩

/-! ## Properties -/

/-- C1: for every irq in [0,127] and every state of 32-bit registers, `NVIC_EnableIRQ irq`
leaves set-enable register number `irq / 32` equal to its old value OR-ed with the single
bit `1 <<< (irq % 32)`, and leaves every other register (the other three set-enable
registers included) unchanged. -/
theorem NVIC_EnableIRQ_sets_one_bit (irq : Nat) (m : Machine) (hirq : irq < 128)
    (hwf : m.WF) :
    (NVIC_EnableIRQ irq m).regs (setEnableReg (irq / 32))
        = m.regs (setEnableReg (irq / 32)) ||| (1 <<< (irq % 32))
      ∧ ∀ r, r ≠ setEnableReg (irq / 32) → (NVIC_EnableIRQ irq m).regs r = m.regs r := by
  have key : ∀ (r : Reg) (j : Nat), j < 32 →
      (m.write r (m.read r ||| shl32 1 j)).regs r = m.regs r ||| (1 <<< j)
        ∧ ∀ x, x ≠ r → (m.write r (m.read r ||| shl32 1 j)).regs x = m.regs x := by
    intro r j hj
    constructor
    · simp only [Machine.write, Machine.read, if_true, shl32_one j hj]
      exact Nat.mod_eq_of_lt (or_lt_uint32 _ _ (hwf r) (one_shl_lt j hj))
    · intro x hx
      simp [Machine.write, hx]
  unfold NVIC_EnableIRQ
  by_cases h0 : irq < 32
  · have hd : irq / 32 = 0 := by omega
    have hm : irq % 32 = irq := by omega
    rw [if_pos h0, hd, hm]
    exact key _ irq h0
  · by_cases h1 : irq < 64
    · have hd : irq / 32 = 1 := by omega
      have hm : irq % 32 = irq - 32 := by omega
      rw [if_neg h0, if_pos h1, hd, hm]
      exact key _ (irq - 32) (by omega)
    · by_cases h2 : irq < 96
      · have hd : irq / 32 = 2 := by omega
        have hm : irq % 32 = irq - 64 := by omega
        rw [if_neg h0, if_neg h1, if_pos h2, hd, hm]
        exact key _ (irq - 64) (by omega)
      · have hd : irq / 32 = 3 := by omega
        have hm : irq % 32 = irq - 96 := by omega
        rw [if_neg h0, if_neg h1, if_neg h2, if_pos hirq, hd, hm]
        exact key _ (irq - 96) (by omega)

/-- Witness for C1 at irq 37 on the all-zero machine. -/
theorem NVIC_EnableIRQ_sets_one_bit_witness :
    (NVIC_EnableIRQ 37 zeroMachine).regs (setEnableReg (37 / 32))
        = zeroMachine.regs (setEnableReg (37 / 32)) ||| (1 <<< (37 % 32))
      ∧ ∀ r, r ≠ setEnableReg (37 / 32) →
          (NVIC_EnableIRQ 37 zeroMachine).regs r = zeroMachine.regs r :=
  NVIC_EnableIRQ_sets_one_bit 37 zeroMachine (by decide) zeroMachine_WF


/-- C2, evaluated on the code: `NVIC_DisableIRQ 1` stores the value read from the
clear-enable register OR-ed with bit 1.  When the register reads 0 the word stored is
`0x2`; when it reads `0x5` the word stored is `0x7`, which has bits 0 and 2 set besides
bit 1.  The word stored therefore depends on the value read and is not the single bit;
the set-enable registers are not stored to in either run. -/
theorem NVIC_DisableIRQ_store_depends_on_read :
    (NVIC_DisableIRQ 1 (oneRegMachine .NVIC_DIS0_REG 0)).writes
        = [(.NVIC_DIS0_REG, 0x2)]
      ∧ (NVIC_DisableIRQ 1 (oneRegMachine .NVIC_DIS0_REG 0x5)).writes
        = [(.NVIC_DIS0_REG, 0x7)]
      ∧ (0x7 : Nat) ≠ 1 <<< (1 % 32) := by
  decide

/-- C3: for every irq in [0,127], every priority in [0,7] and every state of 32-bit
registers, after `NVIC_SetPriorityIRQ irq priority` the 3-bit field at bit offset
`5 + 8 * (irq % 4)` of priority register number `irq / 4` reads exactly `priority`, every
bit of that register outside the field is unchanged, and every other register is
unchanged. -/
theorem NVIC_SetPriorityIRQ_field (irq priority : Nat) (m : Machine) (hirq : irq < 128)
    (hp : priority < 8) (hwf : m.WF) :
    field3 ((NVIC_SetPriorityIRQ irq priority m).regs (.NVIC_PRI (irq / 4)))
        (5 + 8 * (irq % 4)) = priority
      ∧ (∀ i, ¬ inField3 (5 + 8 * (irq % 4)) i →
          ((NVIC_SetPriorityIRQ irq priority m).regs (.NVIC_PRI (irq / 4))).testBit i
            = (m.regs (.NVIC_PRI (irq / 4))).testBit i)
      ∧ ∀ r, r ≠ .NVIC_PRI (irq / 4) →
          (NVIC_SetPriorityIRQ irq priority m).regs r = m.regs r := by
  rw [NVIC_SetPriorityIRQ_regs irq priority m (by omega) hwf]
  exact write_field_spec m _ priority _ hwf (by omega) hp

/-- Witness for C3: irq 6 (word 1, field at bit 21), priority 5, word 1 reading
`0xFFFFFFFF`. -/
theorem NVIC_SetPriorityIRQ_field_witness :
    field3 ((NVIC_SetPriorityIRQ 6 5 (oneRegMachine (.NVIC_PRI 1) 0xFFFFFFFF)).regs
        (.NVIC_PRI (6 / 4))) (5 + 8 * (6 % 4)) = 5
      ∧ (∀ i, ¬ inField3 (5 + 8 * (6 % 4)) i →
          ((NVIC_SetPriorityIRQ 6 5 (oneRegMachine (.NVIC_PRI 1) 0xFFFFFFFF)).regs
              (.NVIC_PRI (6 / 4))).testBit i
            = ((oneRegMachine (.NVIC_PRI 1) 0xFFFFFFFF).regs (.NVIC_PRI (6 / 4))).testBit i)
      ∧ ∀ r, r ≠ .NVIC_PRI (6 / 4) →
          (NVIC_SetPriorityIRQ 6 5 (oneRegMachine (.NVIC_PRI 1) 0xFFFFFFFF)).regs r
            = (oneRegMachine (.NVIC_PRI 1) 0xFFFFFFFF).regs r :=
  NVIC_SetPriorityIRQ_field 6 5 (oneRegMachine (.NVIC_PRI 1) 0xFFFFFFFF) (by decide)
    (by decide) (oneRegMachine_WF _ _ (by decide))

/-- C4, evaluated on the code: `NVIC_SetPriorityIRQ 128 1` on the all-zero machine
performs two stores to the priority word with index 32 (address `0xE000E400 + 4 * 32`)
and leaves it reading `0x20` instead of `0`: a call with an irq in [128,255] does change
a controller register. -/
theorem NVIC_SetPriorityIRQ_128_stores :
    (NVIC_SetPriorityIRQ 128 1 zeroMachine).writes
        = [(.NVIC_PRI 32, 0), (.NVIC_PRI 32, 0x20)]
      ∧ (NVIC_SetPriorityIRQ 128 1 zeroMachine).regs (.NVIC_PRI 32) = 0x20
      ∧ zeroMachine.regs (.NVIC_PRI 32) = 0 := by
  decide

/-- C5: for every irq of 128 or more (so for all of [128,255]) and every state,
`NVIC_EnableIRQ irq` and `NVIC_DisableIRQ irq` each return the state they were given: no
register changes and no store is performed. -/
theorem NVIC_EnableIRQ_DisableIRQ_out_of_range (irq : Nat) (m : Machine)
    (hirq : 128 ≤ irq) :
    NVIC_EnableIRQ irq m = m ∧ NVIC_DisableIRQ irq m = m := by
  have h0 : ¬ irq < 32 := by omega
  have h1 : ¬ irq < 64 := by omega
  have h2 : ¬ irq < 96 := by omega
  have h3 : ¬ irq < 128 := by omega
  constructor
  · unfold NVIC_EnableIRQ
    rw [if_neg h0, if_neg h1, if_neg h2, if_neg h3]
  · unfold NVIC_DisableIRQ
    rw [if_neg h0, if_neg h1, if_neg h2, if_neg h3]

/-- Witness for C5 at irq 200 with set-enable register 0 reading `0xF`. -/
theorem NVIC_EnableIRQ_DisableIRQ_out_of_range_witness :
    NVIC_EnableIRQ 200 (oneRegMachine .NVIC_EN0_REG 0xF) = oneRegMachine .NVIC_EN0_REG 0xF
      ∧ NVIC_DisableIRQ 200 (oneRegMachine .NVIC_EN0_REG 0xF)
          = oneRegMachine .NVIC_EN0_REG 0xF :=
  NVIC_EnableIRQ_DisableIRQ_out_of_range 200 (oneRegMachine .NVIC_EN0_REG 0xF) (by decide)

/-- C6: for every priority in [0,7], every state of 32-bit registers and each of the seven
exceptions that have a designated field (mem-fault bits 5-7, bus-fault bits 13-15,
usage-fault bits 21-23 of system priority register 1; SVC bits 29-31 of register 2;
debug-monitor bits 5-7, PendSV bits 21-23, SysTick bits 29-31 of register 3), after
`NVIC_SetPriorityException` the field reads exactly `priority`, every bit of its register
outside the field is unchanged, and every other register (the other system priority
registers included) is unchanged. -/
theorem NVIC_SetPriorityException_field (e : NVIC_ExceptionType) (priority : Nat)
    (m : Machine) (r : Reg) (off : Nat) (hd : designatedField e = some (r, off))
    (hp : priority < 8) (hwf : m.WF) :
    field3 ((NVIC_SetPriorityException e priority m).regs r) off = priority
      ∧ (∀ i, ¬ inField3 off i →
          ((NVIC_SetPriorityException e priority m).regs r).testBit i
            = (m.regs r).testBit i)
      ∧ ∀ x, x ≠ r → (NVIC_SetPriorityException e priority m).regs x = m.regs x := by
  cases e <;> simp [designatedField] at hd <;>
    (obtain ⟨hr, ho⟩ := hd
     subst hr
     subst ho
     simp only [NVIC_SetPriorityException, priority_mask_eq, MEM_FAULT_PRIORITY_BITS_POS,
       BUS_FAULT_PRIORITY_BITS_POS, USAGE_FAULT_PRIORITY_BITS_POS, SVC_PRIORITY_BITS_POS,
       DEBUG_MONITOR_PRIORITY_BITS_POS, PENDSV_PRIORITY_BITS_POS, SYSTICK_PRIORITY_BITS_POS]
     exact write_field_spec m _ priority _ hwf (by decide) hp)

/-- Witness for C6: SysTick priority 3 with system priority register 3 reading
`0xFFFFFFFF`. -/
theorem NVIC_SetPriorityException_field_witness :
    field3 ((NVIC_SetPriorityException .EXCEPTION_SYSTICK_TYPE 3
        (oneRegMachine .NVIC_SYSTEM_PRI3_REG 0xFFFFFFFF)).regs .NVIC_SYSTEM_PRI3_REG) 29 = 3
      ∧ (∀ i, ¬ inField3 29 i →
          ((NVIC_SetPriorityException .EXCEPTION_SYSTICK_TYPE 3
              (oneRegMachine .NVIC_SYSTEM_PRI3_REG 0xFFFFFFFF)).regs
                .NVIC_SYSTEM_PRI3_REG).testBit i
            = ((oneRegMachine .NVIC_SYSTEM_PRI3_REG 0xFFFFFFFF).regs
                .NVIC_SYSTEM_PRI3_REG).testBit i)
      ∧ ∀ x, x ≠ .NVIC_SYSTEM_PRI3_REG →
          (NVIC_SetPriorityException .EXCEPTION_SYSTICK_TYPE 3
              (oneRegMachine .NVIC_SYSTEM_PRI3_REG 0xFFFFFFFF)).regs x
            = (oneRegMachine .NVIC_SYSTEM_PRI3_REG 0xFFFFFFFF).regs x :=
  NVIC_SetPriorityException_field .EXCEPTION_SYSTICK_TYPE 3
    (oneRegMachine .NVIC_SYSTEM_PRI3_REG 0xFFFFFFFF) .NVIC_SYSTEM_PRI3_REG 29 rfl
    (by decide) (oneRegMachine_WF _ _ (by decide))

/-- C7: for every priority value and every state, `NVIC_SetPriorityException` called with
the reset, NMI or hard-fault exception returns the state it was given: the three system
priority registers and every other register are unchanged and no store is performed. -/
theorem NVIC_SetPriorityException_fixed_priority (priority : Nat) (m : Machine) :
    NVIC_SetPriorityException EXCEPTION_RESET_TYPE priority m = m
      ∧ NVIC_SetPriorityException EXCEPTION_NMI_TYPE priority m = m
      ∧ NVIC_SetPriorityException EXCEPTION_HARD_FAULT_TYPE priority m = m :=
  ⟨rfl, rfl, rfl⟩

/-- C8: for every exception other than mem-fault, bus-fault and usage-fault (reset, NMI,
hard-fault, SVC, debug-monitor, PendSV, SysTick) and every state, `NVIC_EnableException`
and `NVIC_DisableException` each leave the system-handler control register unchanged;
indeed each returns the state it was given. -/
theorem NVIC_EnableException_DisableException_unsupported (e : NVIC_ExceptionType)
    (m : Machine) (hmem : e ≠ EXCEPTION_MEM_FAULT_TYPE) (hbus : e ≠ EXCEPTION_BUS_FAULT_TYPE)
    (husage : e ≠ EXCEPTION_USAGE_FAULT_TYPE) :
    (NVIC_EnableException e m).regs .NVIC_SYSTEM_SYSHNDCTRL
        = m.regs .NVIC_SYSTEM_SYSHNDCTRL
      ∧ (NVIC_DisableException e m).regs .NVIC_SYSTEM_SYSHNDCTRL
        = m.regs .NVIC_SYSTEM_SYSHNDCTRL
      ∧ NVIC_EnableException e m = m ∧ NVIC_DisableException e m = m := by
  cases e <;> first
    | exact absurd rfl hmem
    | exact absurd rfl hbus
    | exact absurd rfl husage
    | exact ⟨rfl, rfl, rfl, rfl⟩

/-- Witness for C8: the SysTick exception with the control register reading `0x70000`. -/
theorem NVIC_EnableException_DisableException_unsupported_witness :
    (NVIC_EnableException .EXCEPTION_SYSTICK_TYPE
          (oneRegMachine .NVIC_SYSTEM_SYSHNDCTRL 0x70000)).regs .NVIC_SYSTEM_SYSHNDCTRL
        = (oneRegMachine .NVIC_SYSTEM_SYSHNDCTRL 0x70000).regs .NVIC_SYSTEM_SYSHNDCTRL
      ∧ (NVIC_DisableException .EXCEPTION_SYSTICK_TYPE
          (oneRegMachine .NVIC_SYSTEM_SYSHNDCTRL 0x70000)).regs .NVIC_SYSTEM_SYSHNDCTRL
        = (oneRegMachine .NVIC_SYSTEM_SYSHNDCTRL 0x70000).regs .NVIC_SYSTEM_SYSHNDCTRL
      ∧ NVIC_EnableException .EXCEPTION_SYSTICK_TYPE
          (oneRegMachine .NVIC_SYSTEM_SYSHNDCTRL 0x70000)
        = oneRegMachine .NVIC_SYSTEM_SYSHNDCTRL 0x70000
      ∧ NVIC_DisableException .EXCEPTION_SYSTICK_TYPE
          (oneRegMachine .NVIC_SYSTEM_SYSHNDCTRL 0x70000)
        = oneRegMachine .NVIC_SYSTEM_SYSHNDCTRL 0x70000 :=
  NVIC_EnableException_DisableException_unsupported .EXCEPTION_SYSTICK_TYPE
    (oneRegMachine .NVIC_SYSTEM_SYSHNDCTRL 0x70000) (by decide) (by decide) (by decide)

/-- C9: for each of mem-fault, bus-fault and usage-fault, with `b` its enable bit (16, 17,
18 respectively) and every state of 32-bit registers: `NVIC_EnableException` leaves bit
`b` of the system-handler control register set and `NVIC_DisableException` leaves it
clear, each leaving every other bit of that register and every other register unchanged;
Enable followed by Disable leaves bit `b` clear and Disable followed by Enable leaves it
set. -/
theorem NVIC_EnableException_DisableException_own_bit (e : NVIC_ExceptionType) (b : Nat)
    (m : Machine) (he : enableBit e = some b) (hwf : m.WF) :
    (((NVIC_EnableException e m).regs .NVIC_SYSTEM_SYSHNDCTRL).testBit b = true
        ∧ (∀ i, i ≠ b → ((NVIC_EnableException e m).regs .NVIC_SYSTEM_SYSHNDCTRL).testBit i
              = (m.regs .NVIC_SYSTEM_SYSHNDCTRL).testBit i)
        ∧ ∀ r, r ≠ .NVIC_SYSTEM_SYSHNDCTRL → (NVIC_EnableException e m).regs r = m.regs r)
      ∧ (((NVIC_DisableException e m).regs .NVIC_SYSTEM_SYSHNDCTRL).testBit b = false
        ∧ (∀ i, i ≠ b → ((NVIC_DisableException e m).regs .NVIC_SYSTEM_SYSHNDCTRL).testBit i
              = (m.regs .NVIC_SYSTEM_SYSHNDCTRL).testBit i)
        ∧ ∀ r, r ≠ .NVIC_SYSTEM_SYSHNDCTRL → (NVIC_DisableException e m).regs r = m.regs r)
      ∧ ((NVIC_DisableException e (NVIC_EnableException e m)).regs
            .NVIC_SYSTEM_SYSHNDCTRL).testBit b = false
      ∧ ((NVIC_EnableException e (NVIC_DisableException e m)).regs
            .NVIC_SYSTEM_SYSHNDCTRL).testBit b = true := by
  have hen : ∀ (k : Nat) (s : Machine), k < 32 → s.WF →
      ((s.write .NVIC_SYSTEM_SYSHNDCTRL (s.read .NVIC_SYSTEM_SYSHNDCTRL ||| 2 ^ k)).regs
          .NVIC_SYSTEM_SYSHNDCTRL).testBit k = true
        ∧ (∀ i, i ≠ k →
            ((s.write .NVIC_SYSTEM_SYSHNDCTRL (s.read .NVIC_SYSTEM_SYSHNDCTRL ||| 2 ^ k)).regs
              .NVIC_SYSTEM_SYSHNDCTRL).testBit i = (s.regs .NVIC_SYSTEM_SYSHNDCTRL).testBit i)
        ∧ ∀ r, r ≠ .NVIC_SYSTEM_SYSHNDCTRL →
            (s.write .NVIC_SYSTEM_SYSHNDCTRL (s.read .NVIC_SYSTEM_SYSHNDCTRL ||| 2 ^ k)).regs r
              = s.regs r := by
    intro k s hk hs
    refine ⟨?_, ?_, fun r hr => write_regs_other s _ r _ hr⟩
    · rw [testBit_write_or_bit s _ k k hk hs]
      simp
    · intro i hi
      rw [testBit_write_or_bit s _ k i hk hs]
      simp [hi]
  have hdis : ∀ (k : Nat) (s : Machine), k < 32 → s.WF →
      ((s.write .NVIC_SYSTEM_SYSHNDCTRL
          (s.read .NVIC_SYSTEM_SYSHNDCTRL &&& not32 (2 ^ k))).regs
          .NVIC_SYSTEM_SYSHNDCTRL).testBit k = false
        ∧ (∀ i, i ≠ k →
            ((s.write .NVIC_SYSTEM_SYSHNDCTRL
                (s.read .NVIC_SYSTEM_SYSHNDCTRL &&& not32 (2 ^ k))).regs
              .NVIC_SYSTEM_SYSHNDCTRL).testBit i = (s.regs .NVIC_SYSTEM_SYSHNDCTRL).testBit i)
        ∧ ∀ r, r ≠ .NVIC_SYSTEM_SYSHNDCTRL →
            (s.write .NVIC_SYSTEM_SYSHNDCTRL
                (s.read .NVIC_SYSTEM_SYSHNDCTRL &&& not32 (2 ^ k))).regs r
              = s.regs r := by
    intro k s hk hs
    refine ⟨?_, ?_, fun r hr => write_regs_other s _ r _ hr⟩
    · rw [testBit_write_andnot_bit s _ k k hk hs]
      simp
    · intro i hi
      rw [testBit_write_andnot_bit s _ k i hk hs]
      simp [hi]
  cases e <;> simp [enableBit] at he <;> subst he <;>
    simp only [NVIC_EnableException, NVIC_DisableException, enable_mask_eq] <;>
    exact ⟨hen _ m (by decide) hwf, hdis _ m (by decide) hwf,
      (hdis _ _ (by decide) (write_WF m _ _ hwf)).1,
      (hen _ _ (by decide) (write_WF m _ _ hwf)).1⟩

/-- Witness for C9: the bus-fault exception (bit 17) with the control register reading
`0x50000`. -/
theorem NVIC_EnableException_DisableException_own_bit_witness :
    (((NVIC_EnableException .EXCEPTION_BUS_FAULT_TYPE
          (oneRegMachine .NVIC_SYSTEM_SYSHNDCTRL 0x50000)).regs
            .NVIC_SYSTEM_SYSHNDCTRL).testBit 17 = true
        ∧ (∀ i, i ≠ 17 → ((NVIC_EnableException .EXCEPTION_BUS_FAULT_TYPE
              (oneRegMachine .NVIC_SYSTEM_SYSHNDCTRL 0x50000)).regs
                .NVIC_SYSTEM_SYSHNDCTRL).testBit i
              = ((oneRegMachine .NVIC_SYSTEM_SYSHNDCTRL 0x50000).regs
                  .NVIC_SYSTEM_SYSHNDCTRL).testBit i)
        ∧ ∀ r, r ≠ .NVIC_SYSTEM_SYSHNDCTRL →
            (NVIC_EnableException .EXCEPTION_BUS_FAULT_TYPE
              (oneRegMachine .NVIC_SYSTEM_SYSHNDCTRL 0x50000)).regs r
              = (oneRegMachine .NVIC_SYSTEM_SYSHNDCTRL 0x50000).regs r)
      ∧ (((NVIC_DisableException .EXCEPTION_BUS_FAULT_TYPE
          (oneRegMachine .NVIC_SYSTEM_SYSHNDCTRL 0x50000)).regs
            .NVIC_SYSTEM_SYSHNDCTRL).testBit 17 = false
        ∧ (∀ i, i ≠ 17 → ((NVIC_DisableException .EXCEPTION_BUS_FAULT_TYPE
              (oneRegMachine .NVIC_SYSTEM_SYSHNDCTRL 0x50000)).regs
                .NVIC_SYSTEM_SYSHNDCTRL).testBit i
              = ((oneRegMachine .NVIC_SYSTEM_SYSHNDCTRL 0x50000).regs
                  .NVIC_SYSTEM_SYSHNDCTRL).testBit i)
        ∧ ∀ r, r ≠ .NVIC_SYSTEM_SYSHNDCTRL →
            (NVIC_DisableException .EXCEPTION_BUS_FAULT_TYPE
              (oneRegMachine .NVIC_SYSTEM_SYSHNDCTRL 0x50000)).regs r
              = (oneRegMachine .NVIC_SYSTEM_SYSHNDCTRL 0x50000).regs r)
      ∧ ((NVIC_DisableException .EXCEPTION_BUS_FAULT_TYPE
            (NVIC_EnableException .EXCEPTION_BUS_FAULT_TYPE
              (oneRegMachine .NVIC_SYSTEM_SYSHNDCTRL 0x50000))).regs
            .NVIC_SYSTEM_SYSHNDCTRL).testBit 17 = false
      ∧ ((NVIC_EnableException .EXCEPTION_BUS_FAULT_TYPE
            (NVIC_DisableException .EXCEPTION_BUS_FAULT_TYPE
              (oneRegMachine .NVIC_SYSTEM_SYSHNDCTRL 0x50000))).regs
            .NVIC_SYSTEM_SYSHNDCTRL).testBit 17 = true :=
  NVIC_EnableException_DisableException_own_bit .EXCEPTION_BUS_FAULT_TYPE 17
    (oneRegMachine .NVIC_SYSTEM_SYSHNDCTRL 0x50000) rfl (oneRegMachine_WF _ _ (by decide))

/-- C10: for every duration `d` with `1 ≤ d` and `d * 16000 ≤ 2 ^ 24` (that is, `d` in
[1,1048]) and every prior state, `SysTick_Init d` ends with the reload register equal to
`d * 16000 - 1`, the current-value register equal to 0 and the control register equal to
`0x07`; in particular `SysTick_Init 100` leaves the reload register at 1,599,999. -/
theorem SysTick_Init_registers (d : Nat) (m : Machine) (hd : 1 ≤ d)
    (hmax : d * 16000 ≤ 2 ^ 24) :
    (SysTick_Init d m).regs .SYSTICK_RELOAD_REG = d * 16000 - 1
      ∧ (SysTick_Init d m).regs .SYSTICK_CURRENT_REG = 0
      ∧ (SysTick_Init d m).regs .SYSTICK_CTRL_REG = 0x07
      ∧ d ≤ 1048
      ∧ (SysTick_Init 100 m).regs .SYSTICK_RELOAD_REG = 1599999 := by
  have hmax2 : d * 16000 ≤ 16777216 := hmax
  have ht : SysTick_ticks d = d * 16000 - 1 :=
    SysTick_ticks_eq d hd (by have : (2:Nat) ^ 32 = 4294967296 := by decide
                              omega)
  have h100 : SysTick_ticks 100 = 1599999 := by decide
  have hlt : (d * 16000 - 1) % UINT32_MOD = d * 16000 - 1 :=
    Nat.mod_eq_of_lt (by unfold UINT32_MOD; omega)
  refine ⟨?_, ?_, ?_, by omega, ?_⟩
  · simp [SysTick_Init, Machine.write, ht, hlt]
  · simp [SysTick_Init, Machine.write]
  · simp [SysTick_Init, Machine.write, UINT32_MOD]
  · simp [SysTick_Init, Machine.write, h100, UINT32_MOD]

/-- Witness for C10 at the largest admissible duration, 1048 ms, with the timer registers
initially non-zero. -/
theorem SysTick_Init_registers_witness :
    (SysTick_Init 1048 (oneRegMachine .SYSTICK_CTRL_REG 0x10007)).regs .SYSTICK_RELOAD_REG
        = 1048 * 16000 - 1
      ∧ (SysTick_Init 1048 (oneRegMachine .SYSTICK_CTRL_REG 0x10007)).regs
          .SYSTICK_CURRENT_REG = 0
      ∧ (SysTick_Init 1048 (oneRegMachine .SYSTICK_CTRL_REG 0x10007)).regs
          .SYSTICK_CTRL_REG = 0x07
      ∧ 1048 ≤ 1048
      ∧ (SysTick_Init 100 (oneRegMachine .SYSTICK_CTRL_REG 0x10007)).regs
          .SYSTICK_RELOAD_REG = 1599999 :=
  SysTick_Init_registers 1048 (oneRegMachine .SYSTICK_CTRL_REG 0x10007) (by decide)
    (by decide)


/-- C11: with a non-null `f` registered by `SysTick_SetCallBack`, one run of
`SysTick_Handler` makes exactly one call, of `f`, and `n` runs make exactly `n` calls, all
of `f`; after `SysTick_SetCallBack NULL_PTR`, and in the start-up state where nothing has
been registered, any number of runs makes no call; and when `SysTick_SetCallBack` has been
called several times (first with each of `gs` in turn, last with `f`) the runs call only
the most recently registered `f`. -/
theorem SysTick_Handler_calls_registered (f : Nat) (m : Machine) (n : Nat) (gs : List Nat)
    (regs : Reg → Nat) (hf : f ≠ NULL_PTR) :
    (SysTick_Handler (SysTick_SetCallBack f m)).calls = m.calls ++ [f]
      ∧ (SysTick_Handler^[n] (SysTick_SetCallBack f m)).calls
          = m.calls ++ List.replicate n f
      ∧ (SysTick_Handler^[n] (SysTick_SetCallBack NULL_PTR m)).calls = m.calls
      ∧ (SysTick_Handler^[n] (startupMachine regs)).calls = []
      ∧ (SysTick_Handler^[n]
            (SysTick_SetCallBack f (gs.foldl (fun s g => SysTick_SetCallBack g s) m))).calls
          = m.calls ++ List.replicate n f := by
  refine ⟨?_, ?_, ?_, ?_, ?_⟩
  · have h := SysTick_Handler_iterate_calls f hf 1 (SysTick_SetCallBack f m) rfl
    simpa using h
  · exact SysTick_Handler_iterate_calls f hf n (SysTick_SetCallBack f m) rfl
  · rw [SysTick_Handler_iterate_null n (SysTick_SetCallBack NULL_PTR m) rfl]
    rfl
  · rw [SysTick_Handler_iterate_null n (startupMachine regs) rfl]
    rfl
  · rw [SysTick_Handler_iterate_calls f hf n _ rfl, SysTick_SetCallBack_calls,
      foldl_SetCallBack_calls]

/-- Witness for C11: callback address 77 registered after 5, `NULL_PTR` and 9, three
handler runs, on the all-zero machine. -/
theorem SysTick_Handler_calls_registered_witness :
    (SysTick_Handler (SysTick_SetCallBack 77 zeroMachine)).calls = zeroMachine.calls ++ [77]
      ∧ (SysTick_Handler^[3] (SysTick_SetCallBack 77 zeroMachine)).calls
          = zeroMachine.calls ++ List.replicate 3 77
      ∧ (SysTick_Handler^[3] (SysTick_SetCallBack NULL_PTR zeroMachine)).calls
          = zeroMachine.calls
      ∧ (SysTick_Handler^[3] (startupMachine (fun _ => 0))).calls = []
      ∧ (SysTick_Handler^[3]
            (SysTick_SetCallBack 77
              ([5, 0, 9].foldl (fun s g => SysTick_SetCallBack g s) zeroMachine))).calls
          = zeroMachine.calls ++ List.replicate 3 77 :=
  SysTick_Handler_calls_registered 77 zeroMachine 3 [5, 0, 9] (fun _ => 0) (by decide)

/-- C12: for every prior state of the timer registers and of the callback slot,
`SysTick_DeInit` leaves the control, reload and current-value registers all equal to 0 and
leaves the callback slot equal to its prior value. -/
theorem SysTick_DeInit_zeroes (m : Machine) :
    (SysTick_DeInit m).regs .SYSTICK_CTRL_REG = 0
      ∧ (SysTick_DeInit m).regs .SYSTICK_RELOAD_REG = 0
      ∧ (SysTick_DeInit m).regs .SYSTICK_CURRENT_REG = 0
      ∧ (SysTick_DeInit m).g_SysTickCallBackPtr = m.g_SysTickCallBackPtr := by
  refine ⟨?_, ?_, ?_, rfl⟩ <;> simp [SysTick_DeInit, Machine.write]

/-- C13: for every state, `SysTick_Start` leaves bit 0 of the control register set and
`SysTick_Stop` leaves it clear, and each leaves bits 1-31 of the control register, every
other register (the reload and current-value registers among them) and the callback slot
unchanged. -/
theorem SysTick_Start_Stop_enable_bit (m : Machine) :
    (((SysTick_Start m).regs .SYSTICK_CTRL_REG).testBit 0 = true
        ∧ (∀ i, 1 ≤ i → i ≤ 31 →
            ((SysTick_Start m).regs .SYSTICK_CTRL_REG).testBit i
              = (m.regs .SYSTICK_CTRL_REG).testBit i)
        ∧ (∀ r, r ≠ .SYSTICK_CTRL_REG → (SysTick_Start m).regs r = m.regs r)
        ∧ (SysTick_Start m).regs .SYSTICK_RELOAD_REG = m.regs .SYSTICK_RELOAD_REG
        ∧ (SysTick_Start m).regs .SYSTICK_CURRENT_REG = m.regs .SYSTICK_CURRENT_REG
        ∧ (SysTick_Start m).g_SysTickCallBackPtr = m.g_SysTickCallBackPtr)
      ∧ (((SysTick_Stop m).regs .SYSTICK_CTRL_REG).testBit 0 = false
        ∧ (∀ i, 1 ≤ i → i ≤ 31 →
            ((SysTick_Stop m).regs .SYSTICK_CTRL_REG).testBit i
              = (m.regs .SYSTICK_CTRL_REG).testBit i)
        ∧ (∀ r, r ≠ .SYSTICK_CTRL_REG → (SysTick_Stop m).regs r = m.regs r)
        ∧ (SysTick_Stop m).regs .SYSTICK_RELOAD_REG = m.regs .SYSTICK_RELOAD_REG
        ∧ (SysTick_Stop m).regs .SYSTICK_CURRENT_REG = m.regs .SYSTICK_CURRENT_REG
        ∧ (SysTick_Stop m).g_SysTickCallBackPtr = m.g_SysTickCallBackPtr) := by
  have h1 : ∀ i, (1 : Nat).testBit i = decide (i = 0) := by
    intro i
    have h : (1 : Nat) = 2 ^ 0 := by decide
    rw [h, Nat.testBit_two_pow]
    by_cases hi : i = 0
    · simp [hi]
    · have : ¬ 0 = i := fun h => hi h.symm
      simp [hi, this]
  have hstart : ∀ i, ((SysTick_Start m).regs .SYSTICK_CTRL_REG).testBit i
      = (decide (i < 32) && ((m.regs .SYSTICK_CTRL_REG).testBit i || decide (i = 0))) := by
    intro i
    unfold SysTick_Start
    rw [write_regs_same, read_eq, testBit_mod_uint32, Nat.testBit_or, h1]
  have hstop : ∀ i, ((SysTick_Stop m).regs .SYSTICK_CTRL_REG).testBit i
      = (decide (i < 32) && ((m.regs .SYSTICK_CTRL_REG).testBit i
          && (decide (i < 32) && !decide (i = 0)))) := by
    intro i
    unfold SysTick_Stop
    rw [write_regs_same, read_eq, testBit_mod_uint32, Nat.testBit_and, testBit_not32, h1]
  refine ⟨⟨?_, ?_, ?_, ?_, ?_, rfl⟩, ⟨?_, ?_, ?_, ?_, ?_, rfl⟩⟩
  · rw [hstart]; simp
  · intro i hi1 hi2
    have hlt : i < 32 := by omega
    have hne : ¬ i = 0 := by omega
    rw [hstart]; simp [hlt, hne]
  · intro r hr
    exact write_regs_other m _ r _ hr
  · exact write_regs_other m _ _ _ (by decide)
  · exact write_regs_other m _ _ _ (by decide)
  · rw [hstop]; simp
  · intro i hi1 hi2
    have hlt : i < 32 := by omega
    have hne : ¬ i = 0 := by omega
    rw [hstop]; simp [hlt, hne]
  · intro r hr
    exact write_regs_other m _ r _ hr
  · exact write_regs_other m _ _ _ (by decide)
  · exact write_regs_other m _ _ _ (by decide)

/-- C14: for every duration `d`, every sequence `hw` of values that the reads of the
control register return and every bound `fuel` on the number of polls:
if `SysTick_StartBusyWait d` returns, then there is a read `n` with the count flag (bit 16)
set, every earlier polled read had the flag clear, and the bus accesses of the call are
exactly: the stores control := 0, reload := ticks, current := 0, control := 0x05, then the
`n + 1` polled reads of the control register (so the value in force during the wait is
0x05, interrupt bit clear), then the store control := 0, after which the control register
reads 0.  The call does return as soon as some read within the bound has the flag set, and
does not return while every read has it clear.  The value 0x05 has the enable bit (bit 0)
set and the interrupt bit (bit 1) clear. -/
theorem SysTick_StartBusyWait_returns_after_count_flag (d : Nat) (hw : Nat → Nat)
    (fuel : Nat) (m : Machine) :
    ((SysTick_StartBusyWait d hw fuel m).returned = true →
        ∃ n, n < fuel ∧ (hw n).testBit 16 = true
          ∧ (∀ j, j < n → (hw j).testBit 16 = false)
          ∧ (SysTick_StartBusyWait d hw fuel m).trace
              = [BusEvent.store .SYSTICK_CTRL_REG 0,
                  BusEvent.store .SYSTICK_RELOAD_REG (SysTick_ticks d),
                  BusEvent.store .SYSTICK_CURRENT_REG 0,
                  BusEvent.store .SYSTICK_CTRL_REG 0x05]
                ++ (List.range (n + 1)).map (fun j => BusEvent.load .SYSTICK_CTRL_REG (hw j))
                ++ [BusEvent.store .SYSTICK_CTRL_REG 0]
          ∧ (SysTick_StartBusyWait d hw fuel m).m.regs .SYSTICK_CTRL_REG = 0)
      ∧ (∀ n, n < fuel → (hw n).testBit 16 = true →
          (SysTick_StartBusyWait d hw fuel m).returned = true)
      ∧ ((∀ j, j < fuel → (hw j).testBit 16 = false) →
          (SysTick_StartBusyWait d hw fuel m).returned = false)
      ∧ (0x05 : Nat).testBit 0 = true ∧ (0x05 : Nat).testBit 1 = false := by
  rw [SysTick_StartBusyWait_eq]
  refine ⟨?_, ?_, ?_, by decide, by decide⟩
  · intro hret
    by_cases hr : (SysTick_pollCountFlag hw fuel 0 (busyWaitArmed d m)).returned = true
    · obtain ⟨n, hn, hset, hclear⟩ :=
        SysTick_pollCountFlag_returned hw fuel 0 (busyWaitArmed d m) rfl hr
      have hpoll := SysTick_pollCountFlag_first hw n fuel 0 (busyWaitArmed d m) hn hset hclear
      simp only [Nat.zero_add] at hset hclear hpoll
      refine ⟨n, hn, hset, hclear, ?_, ?_⟩
      · rw [if_pos hr, hpoll]
        simp [BusyWaitRun.store, busyWaitArmed, UINT32_MOD]
      · rw [if_pos hr]
        simp [BusyWaitRun.store, Machine.write, UINT32_MOD]
    · rw [if_neg hr] at hret
      exact absurd hret hr
  · intro n hn hset
    have hr : (SysTick_pollCountFlag hw fuel 0 (busyWaitArmed d m)).returned = true :=
      SysTick_pollCountFlag_leaves hw fuel 0 n _ hn (by simpa using hset)
    rw [if_pos hr]
    simpa [BusyWaitRun.store] using hr
  · intro hclear
    have hpoll := SysTick_pollCountFlag_none hw fuel 0 (busyWaitArmed d m)
      (fun j hj => by simpa using hclear j hj)
    rw [hpoll]
    simp [busyWaitArmed]

/-- C15: for every irq in [0,127], every priority (so every priority in [0,7]) and every
state of 32-bit registers, calling `NVIC_SetPriorityIRQ irq priority` twice in succession
yields exactly the same register state as calling it once. -/
theorem NVIC_SetPriorityIRQ_idempotent (irq priority : Nat) (m : Machine)
    (hirq : irq < 128) (hwf : m.WF) :
    (NVIC_SetPriorityIRQ irq priority (NVIC_SetPriorityIRQ irq priority m)).regs
      = (NVIC_SetPriorityIRQ irq priority m).regs := by
  have h256 : irq < 256 := by omega
  have hwf1 := NVIC_SetPriorityIRQ_WF irq priority m h256 hwf
  funext x
  rw [NVIC_SetPriorityIRQ_regs_apply irq priority _ x h256 hwf1]
  by_cases hx : x = .NVIC_PRI (irq / 4)
  · subst hx
    rw [if_pos rfl, NVIC_SetPriorityIRQ_regs_apply irq priority m _ h256 hwf, if_pos rfl]
    exact field_store_idem _ priority _ (hwf _) (by omega)
  · rw [if_neg hx]

/-- Witness for C15: irq 9 (word 2, field at bit 13), priority 6, word 2 reading
`0xFFFFFFFF`. -/
theorem NVIC_SetPriorityIRQ_idempotent_witness :
    (NVIC_SetPriorityIRQ 9 6
        (NVIC_SetPriorityIRQ 9 6 (oneRegMachine (.NVIC_PRI 2) 0xFFFFFFFF))).regs
      = (NVIC_SetPriorityIRQ 9 6 (oneRegMachine (.NVIC_PRI 2) 0xFFFFFFFF)).regs :=
  NVIC_SetPriorityIRQ_idempotent 9 6 (oneRegMachine (.NVIC_PRI 2) 0xFFFFFFFF) (by decide)
    (oneRegMachine_WF _ _ (by decide))

/-- C16: for every 16-bit duration `d`, the reload value that `SysTick_Init d` and
`SysTick_StartBusyWait d` store is `(d * 16000 - 1) mod 2 ^ 32` (computed on the
integers); for `d` in [1,65535] it is exactly `d * 16000 - 1`, with the product below
`2 ^ 31` so that nothing overflows; it is at most `0xFFFFFF` if and only if
`1 ≤ d ≤ 1048`; and for `d = 0` it is `0xFFFFFFFF`. -/
theorem SysTick_reload_value (d : Nat) (m : Machine) (hw : Nat → Nat) (fuel : Nat)
    (hd : d < 65536) :
    (SysTick_Init d m).regs .SYSTICK_RELOAD_REG
        = ((((d : Int) * 16000) - 1) % 4294967296).toNat
      ∧ (SysTick_StartBusyWait d hw fuel m).m.regs .SYSTICK_RELOAD_REG
        = ((((d : Int) * 16000) - 1) % 4294967296).toNat
      ∧ (1 ≤ d → (SysTick_Init d m).regs .SYSTICK_RELOAD_REG = d * 16000 - 1
          ∧ d * 16000 < 2147483648)
      ∧ ((SysTick_Init d m).regs .SYSTICK_RELOAD_REG ≤ 0xFFFFFF ↔ 1 ≤ d ∧ d ≤ 1048)
      ∧ (SysTick_Init 0 m).regs .SYSTICK_RELOAD_REG = 0xFFFFFFFF := by
  rw [SysTick_Init_reload, SysTick_Init_reload, SysTick_StartBusyWait_reload]
  refine ⟨rfl, rfl, ?_, ?_, by decide⟩
  · intro h1
    exact ⟨SysTick_ticks_eq d h1 (by norm_num; omega), by omega⟩
  · by_cases h1 : 1 ≤ d
    · rw [SysTick_ticks_eq d h1 (by norm_num; omega)]
      omega
    · have h0 : d = 0 := by omega
      subst h0
      have ht : SysTick_ticks 0 = 4294967295 := by decide
      rw [ht]
      omega

/-- Witness for C16: the first duration whose reload value no longer fits in 24 bits,
1049 ms, with a timer whose count flag is up at the third poll. -/
theorem SysTick_reload_value_witness :
    (SysTick_Init 1049 zeroMachine).regs .SYSTICK_RELOAD_REG
        = ((((1049 : Nat) : Int) * 16000 - 1) % 4294967296).toNat
      ∧ (SysTick_StartBusyWait 1049 (fun k => if k < 2 then 0x5 else 0x10005) 8
            zeroMachine).m.regs .SYSTICK_RELOAD_REG
        = ((((1049 : Nat) : Int) * 16000 - 1) % 4294967296).toNat
      ∧ (1 ≤ 1049 → (SysTick_Init 1049 zeroMachine).regs .SYSTICK_RELOAD_REG
            = 1049 * 16000 - 1
          ∧ 1049 * 16000 < 2147483648)
      ∧ ((SysTick_Init 1049 zeroMachine).regs .SYSTICK_RELOAD_REG ≤ 0xFFFFFF
          ↔ 1 ≤ 1049 ∧ 1049 ≤ 1048)
      ∧ (SysTick_Init 0 zeroMachine).regs .SYSTICK_RELOAD_REG = 0xFFFFFFFF :=
  SysTick_reload_value 1049 zeroMachine (fun k => if k < 2 then 0x5 else 0x10005) 8
    (by decide)

/-- C17: for every duration `d`, whatever the polled reads return and however long the
polling goes on, the stores that `SysTick_StartBusyWait d` performs before its first poll
are control := 0, reload := ticks, current := 0, control := 0x05, and the stores that
`SysTick_Init d` performs are control := 0, reload := ticks, current := 0, control := 0x07
with the same ticks: the two sequences differ only in the last value, and 0x05 and 0x07
differ only in bit 1, the interrupt-enable bit. -/
theorem SysTick_StartBusyWait_setup_as_Init (d : Nat) (hw : Nat → Nat) (fuel : Nat)
    (m : Machine) :
    storesBeforeFirstLoad (SysTick_StartBusyWait d hw fuel m).trace
        = [(.SYSTICK_CTRL_REG, 0), (.SYSTICK_RELOAD_REG, SysTick_ticks d),
            (.SYSTICK_CURRENT_REG, 0), (.SYSTICK_CTRL_REG, 0x05)]
      ∧ (SysTick_Init d m).writes
        = m.writes ++ [(.SYSTICK_CTRL_REG, 0), (.SYSTICK_RELOAD_REG, SysTick_ticks d),
            (.SYSTICK_CURRENT_REG, 0), (.SYSTICK_CTRL_REG, 0x07)]
      ∧ (0x05 : Nat) ^^^ 0x07 = 2 ^ 1 := by
  refine ⟨SysTick_StartBusyWait_stores_before_poll d hw fuel m, ?_, by decide⟩
  have ht : SysTick_ticks d % UINT32_MOD = SysTick_ticks d :=
    Nat.mod_eq_of_lt (SysTick_ticks_lt d)
  have h0 : 0 % UINT32_MOD = 0 := by decide
  have h7 : 7 % UINT32_MOD = 7 := by decide
  simp [SysTick_Init, Machine.write, ht, h0, h7]

/-- C18: for every state of 32-bit registers in which bit 0 of the control register is
set, `SysTick_Stop` followed by `SysTick_Start` restores exactly the original register
state; and after `SysTick_Init d` from any prior state whatever (timer enabled or not),
Stop then Start restores the register state that `SysTick_Init` left, with the control
register at `0x07` and the reload register at the value `SysTick_Init` wrote. -/
theorem SysTick_Stop_Start_restores (m : Machine) (d : Nat) :
    (m.WF → (m.regs .SYSTICK_CTRL_REG).testBit 0 = true →
        (SysTick_Start (SysTick_Stop m)).regs = m.regs)
      ∧ (SysTick_Start (SysTick_Stop (SysTick_Init d m))).regs = (SysTick_Init d m).regs
      ∧ (SysTick_Start (SysTick_Stop (SysTick_Init d m))).regs .SYSTICK_CTRL_REG = 0x07
      ∧ (SysTick_Start (SysTick_Stop (SysTick_Init d m))).regs .SYSTICK_RELOAD_REG
          = (SysTick_Init d m).regs .SYSTICK_RELOAD_REG := by
  have h7 : (SysTick_Init d m).regs .SYSTICK_CTRL_REG = 7 := by
    simp [SysTick_Init, Machine.write, UINT32_MOD]
  have hctrl : (SysTick_Start (SysTick_Stop (SysTick_Init d m))).regs .SYSTICK_CTRL_REG
      = 7 := by
    simp only [SysTick_Start, SysTick_Stop, write_regs_same, read_eq, h7]
    decide
  have hother : ∀ (s : Machine) (x : Reg), x ≠ .SYSTICK_CTRL_REG →
      (SysTick_Start (SysTick_Stop s)).regs x = s.regs x := by
    intro s x hx
    simp only [SysTick_Start, SysTick_Stop]
    rw [write_regs_other _ _ x _ hx, write_regs_other _ _ x _ hx]
  refine ⟨?_, ?_, hctrl, hother _ _ (by decide)⟩
  · intro hwf hen
    funext x
    by_cases hx : x = .SYSTICK_CTRL_REG
    · subst hx
      simp only [SysTick_Start, SysTick_Stop, write_regs_same, read_eq]
      exact clear_set_bit0 _ (hwf _) hen
    · exact hother m x hx
  · funext x
    by_cases hx : x = .SYSTICK_CTRL_REG
    · subst hx
      rw [hctrl, h7]
    · exact hother _ x hx

/-- Witness for C18: the round trip on a machine whose control register reads `0x10007`,
and Stop then Start after `SysTick_Init 250` on the all-zero machine, whose timer is
disabled. -/
theorem SysTick_Stop_Start_restores_witness :
    (SysTick_Start (SysTick_Stop (oneRegMachine .SYSTICK_CTRL_REG 0x10007))).regs
        = (oneRegMachine .SYSTICK_CTRL_REG 0x10007).regs
      ∧ (SysTick_Start (SysTick_Stop (SysTick_Init 250 zeroMachine))).regs
          = (SysTick_Init 250 zeroMachine).regs
      ∧ (SysTick_Start (SysTick_Stop (SysTick_Init 250 zeroMachine))).regs
          .SYSTICK_CTRL_REG = 0x07
      ∧ (SysTick_Start (SysTick_Stop (SysTick_Init 250 zeroMachine))).regs
          .SYSTICK_RELOAD_REG
          = (SysTick_Init 250 zeroMachine).regs .SYSTICK_RELOAD_REG :=
  ⟨(SysTick_Stop_Start_restores (oneRegMachine .SYSTICK_CTRL_REG 0x10007) 250).1
      (oneRegMachine_WF _ _ (by decide)) (by decide),
    (SysTick_Stop_Start_restores zeroMachine 250).2⟩

/-- C19: for every irq in [0,127], every 8-bit priority (values above 7 included) and
every state of 32-bit registers, after `NVIC_SetPriorityIRQ irq priority` the targeted
3-bit field reads `priority % 8`; the 3-bit priority field of every other IRQ reads what
it read before; a bit of the target word outside the targeted field that differs from
before is one of the low five bits of the next-higher byte lane (bits
`8 * (irq % 4 + 1)` to `8 * (irq % 4 + 1) + 4`, below bit 32); the word stays a 32-bit
value, so what is shifted past bit 31 is lost; and no other register changes. -/
theorem NVIC_SetPriorityIRQ_any_priority (irq priority : Nat) (m : Machine)
    (hirq : irq < 128) (hp : priority < 256) (hwf : m.WF) :
    field3 ((NVIC_SetPriorityIRQ irq priority m).regs (.NVIC_PRI (irq / 4)))
        (5 + 8 * (irq % 4)) = priority % 8
      ∧ (∀ other, other ≠ irq →
          field3 ((NVIC_SetPriorityIRQ irq priority m).regs (.NVIC_PRI (other / 4)))
              (5 + 8 * (other % 4))
            = field3 (m.regs (.NVIC_PRI (other / 4))) (5 + 8 * (other % 4)))
      ∧ (∀ i, ¬ inField3 (5 + 8 * (irq % 4)) i →
          ((NVIC_SetPriorityIRQ irq priority m).regs (.NVIC_PRI (irq / 4))).testBit i
            ≠ (m.regs (.NVIC_PRI (irq / 4))).testBit i →
          8 * (irq % 4 + 1) ≤ i ∧ i ≤ 8 * (irq % 4 + 1) + 4 ∧ i < 32)
      ∧ (NVIC_SetPriorityIRQ irq priority m).regs (.NVIC_PRI (irq / 4)) < 2 ^ 32
      ∧ ∀ r, r ≠ .NVIC_PRI (irq / 4) →
          (NVIC_SetPriorityIRQ irq priority m).regs r = m.regs r := by
  have h256 : irq < 256 := by omega
  have hoff : 5 + 8 * (irq % 4) + 3 ≤ 32 := by omega
  have hreg := fun x => NVIC_SetPriorityIRQ_regs_apply irq priority m x h256 hwf
  refine ⟨?_, ?_, ?_, ?_, ?_⟩
  · rw [hreg, if_pos rfl]
    exact field_store_field _ priority _ (hwf _) hoff
  · intro other hother
    rw [hreg]
    by_cases hw : other / 4 = irq / 4
    · rw [hw, if_pos rfl]
      exact field_store_other_field _ priority _ _ (hwf _) hoff hp (by omega)
    · have hne : Reg.NVIC_PRI (other / 4) ≠ Reg.NVIC_PRI (irq / 4) := by
        intro h
        exact hw (Reg.NVIC_PRI.inj h)
      rw [if_neg hne]
  · intro i hout hne
    rw [hreg, if_pos rfl] at hne
    have h := field_store_changed_bit _ priority _ i (hwf _) hoff hp hout hne
    omega
  · have h := NVIC_SetPriorityIRQ_WF irq priority m h256 hwf (.NVIC_PRI (irq / 4))
    exact h
  · intro r hr
    rw [hreg, if_neg hr]

/-- Witness for C19: irq 5 (word 1, field at bit 13), priority `0xFF`, word 1 reading
`0xE0E000E0`. -/
theorem NVIC_SetPriorityIRQ_any_priority_witness :
    field3 ((NVIC_SetPriorityIRQ 5 0xFF (oneRegMachine (.NVIC_PRI 1) 0xE0E000E0)).regs
        (.NVIC_PRI (5 / 4))) (5 + 8 * (5 % 4)) = 0xFF % 8
      ∧ (∀ other, other ≠ 5 →
          field3 ((NVIC_SetPriorityIRQ 5 0xFF (oneRegMachine (.NVIC_PRI 1) 0xE0E000E0)).regs
              (.NVIC_PRI (other / 4))) (5 + 8 * (other % 4))
            = field3 ((oneRegMachine (.NVIC_PRI 1) 0xE0E000E0).regs (.NVIC_PRI (other / 4)))
                (5 + 8 * (other % 4)))
      ∧ (∀ i, ¬ inField3 (5 + 8 * (5 % 4)) i →
          ((NVIC_SetPriorityIRQ 5 0xFF (oneRegMachine (.NVIC_PRI 1) 0xE0E000E0)).regs
              (.NVIC_PRI (5 / 4))).testBit i
            ≠ ((oneRegMachine (.NVIC_PRI 1) 0xE0E000E0).regs (.NVIC_PRI (5 / 4))).testBit i →
          8 * (5 % 4 + 1) ≤ i ∧ i ≤ 8 * (5 % 4 + 1) + 4 ∧ i < 32)
      ∧ (NVIC_SetPriorityIRQ 5 0xFF (oneRegMachine (.NVIC_PRI 1) 0xE0E000E0)).regs
          (.NVIC_PRI (5 / 4)) < 2 ^ 32
      ∧ ∀ r, r ≠ .NVIC_PRI (5 / 4) →
          (NVIC_SetPriorityIRQ 5 0xFF (oneRegMachine (.NVIC_PRI 1) 0xE0E000E0)).regs r
            = (oneRegMachine (.NVIC_PRI 1) 0xE0E000E0).regs r :=
  NVIC_SetPriorityIRQ_any_priority 5 0xFF (oneRegMachine (.NVIC_PRI 1) 0xE0E000E0)
    (by decide) (by decide) (oneRegMachine_WF _ _ (by decide))

/-- C20: for every pair of distinct IRQ numbers `a` and `b` in [0,127], all 8-bit
priorities `p` and `q` and every state of 32-bit registers, `NVIC_SetPriorityIRQ a p`
followed by `NVIC_SetPriorityIRQ b q` yields the same register state as
`NVIC_SetPriorityIRQ b q` followed by `NVIC_SetPriorityIRQ a p`. -/
theorem NVIC_SetPriorityIRQ_commute (a b p q : Nat) (m : Machine) (ha : a < 128)
    (hb : b < 128) (hab : a ≠ b) (hp : p < 256) (hq : q < 256) (hwf : m.WF) :
    (NVIC_SetPriorityIRQ b q (NVIC_SetPriorityIRQ a p m)).regs
      = (NVIC_SetPriorityIRQ a p (NVIC_SetPriorityIRQ b q m)).regs := by
  have ha256 : a < 256 := by omega
  have hb256 : b < 256 := by omega
  have hwfa := NVIC_SetPriorityIRQ_WF a p m ha256 hwf
  have hwfb := NVIC_SetPriorityIRQ_WF b q m hb256 hwf
  have e1 := fun x => NVIC_SetPriorityIRQ_regs_apply b q (NVIC_SetPriorityIRQ a p m) x
    hb256 hwfa
  have e2 := fun x => NVIC_SetPriorityIRQ_regs_apply a p m x ha256 hwf
  have e3 := fun x => NVIC_SetPriorityIRQ_regs_apply a p (NVIC_SetPriorityIRQ b q m) x
    ha256 hwfb
  have e4 := fun x => NVIC_SetPriorityIRQ_regs_apply b q m x hb256 hwf
  funext x
  rw [e1, e3, e2, e4, e2, e4]
  by_cases hw : a / 4 = b / 4
  · rw [hw]
    by_cases hx : x = .NVIC_PRI (b / 4)
    · simp only [hx, if_true]
      exact field_store_comm _ p q _ _ (hwf _) (by omega) (by omega) hp hq (by omega)
    · simp only [hx, if_false]
  · have hne : Reg.NVIC_PRI (a / 4) ≠ Reg.NVIC_PRI (b / 4) := by
      intro h
      exact hw (Reg.NVIC_PRI.inj h)
    by_cases hxa : x = .NVIC_PRI (a / 4)
    · subst hxa
      simp only [if_neg hne, if_true]
    · by_cases hxb : x = .NVIC_PRI (b / 4)
      · subst hxb
        simp only [if_neg hne.symm, if_true]
      · simp only [if_neg hxa, if_neg hxb]

/-- Witness for C20: irqs 4 and 5 (both in word 1, fields at bits 5 and 13), priorities
`0xFF` and `0xA5`, word 1 reading `0x12345678`. -/
theorem NVIC_SetPriorityIRQ_commute_witness :
    (NVIC_SetPriorityIRQ 5 0xA5
        (NVIC_SetPriorityIRQ 4 0xFF (oneRegMachine (.NVIC_PRI 1) 0x12345678))).regs
      = (NVIC_SetPriorityIRQ 4 0xFF
          (NVIC_SetPriorityIRQ 5 0xA5 (oneRegMachine (.NVIC_PRI 1) 0x12345678))).regs :=
  NVIC_SetPriorityIRQ_commute 4 5 0xFF 0xA5 (oneRegMachine (.NVIC_PRI 1) 0x12345678)
    (by decide) (by decide) (by decide) (by decide) (by decide)
    (oneRegMachine_WF _ _ (by decide))

/-- C21: for every 8-bit priority (values above 7 included), every state of 32-bit
registers and each of the seven exceptions that have a designated priority field, after
`NVIC_SetPriorityException` that field reads `priority % 8`; the designated field of each
of the other six exceptions reads what it read before; a bit of the register outside the
designated field that differs from before occurs only when `priority > 7`, is one of the
five bits that follow the field inside the word, and lies in no exception's designated
field (a reserved position); and no other register changes. -/
theorem NVIC_SetPriorityException_any_priority (e : NVIC_ExceptionType) (priority : Nat)
    (m : Machine) (r : Reg) (off : Nat) (hd : designatedField e = some (r, off))
    (hp : priority < 256) (hwf : m.WF) :
    field3 ((NVIC_SetPriorityException e priority m).regs r) off = priority % 8
      ∧ (∀ e2 r2 off2, e2 ≠ e → designatedField e2 = some (r2, off2) →
          field3 ((NVIC_SetPriorityException e priority m).regs r2) off2
            = field3 (m.regs r2) off2)
      ∧ (∀ i, ¬ inField3 off i →
          ((NVIC_SetPriorityException e priority m).regs r).testBit i
            ≠ (m.regs r).testBit i →
          7 < priority ∧ off + 3 ≤ i ∧ i < off + 8 ∧ i < 32
            ∧ ∀ e2 off2, designatedField e2 = some (r, off2) → ¬ inField3 off2 i)
      ∧ ∀ x, x ≠ r → (NVIC_SetPriorityException e priority m).regs x = m.regs x := by
  have hoff := designatedField_inside e r off hd
  have hreg := fun x => NVIC_SetPriorityException_regs_apply e priority m r off x hd hwf
  refine ⟨?_, ?_, ?_, ?_⟩
  · rw [hreg, if_pos rfl]
    exact field_store_field _ priority _ (hwf _) hoff
  · intro e2 r2 off2 hne hd2
    rw [hreg]
    by_cases hr : r2 = r
    · subst hr
      rw [if_pos rfl]
      exact field_store_other_field _ priority _ _ (hwf _) hoff hp
        (designatedField_apart e e2 r2 off off2 hd hd2 hne)
    · rw [if_neg hr]
  · intro i hout hne
    rw [hreg, if_pos rfl] at hne
    have hch := field_store_changed_bit _ priority _ i (hwf _) hoff hp hout hne
    have hbig : 7 < priority := by
      by_cases h8 : priority < 8
      · exact absurd ((field_store_spec _ priority _ (hwf r) hoff h8).2 i hout) hne
      · omega
    refine ⟨hbig, hch.1, hch.2.1, hch.2.2, ?_⟩
    intro e2 off2 hd2 hin
    by_cases he : e2 = e
    · subst he
      rw [hd] at hd2
      have ho : off = off2 := by
        have h := Option.some.inj hd2
        exact (Prod.mk.inj h).2
      subst ho
      exact hout hin
    · have hsep := designatedField_apart e e2 r off off2 hd hd2 he
      unfold inField3 at hin
      omega
  · intro x hx
    rw [hreg, if_neg hx]

/-- Witness for C21: the PendSV exception (register 3, field at bit 21) with priority
`0xFF` and register 3 reading `0x200000A0`. -/
theorem NVIC_SetPriorityException_any_priority_witness :
    field3 ((NVIC_SetPriorityException .EXCEPTION_PEND_SV_TYPE 0xFF
        (oneRegMachine .NVIC_SYSTEM_PRI3_REG 0x200000A0)).regs .NVIC_SYSTEM_PRI3_REG) 21
        = 0xFF % 8
      ∧ (∀ e2 r2 off2, e2 ≠ .EXCEPTION_PEND_SV_TYPE → designatedField e2 = some (r2, off2) →
          field3 ((NVIC_SetPriorityException .EXCEPTION_PEND_SV_TYPE 0xFF
              (oneRegMachine .NVIC_SYSTEM_PRI3_REG 0x200000A0)).regs r2) off2
            = field3 ((oneRegMachine .NVIC_SYSTEM_PRI3_REG 0x200000A0).regs r2) off2)
      ∧ (∀ i, ¬ inField3 21 i →
          ((NVIC_SetPriorityException .EXCEPTION_PEND_SV_TYPE 0xFF
              (oneRegMachine .NVIC_SYSTEM_PRI3_REG 0x200000A0)).regs
                .NVIC_SYSTEM_PRI3_REG).testBit i
            ≠ ((oneRegMachine .NVIC_SYSTEM_PRI3_REG 0x200000A0).regs
                .NVIC_SYSTEM_PRI3_REG).testBit i →
          7 < 0xFF ∧ 21 + 3 ≤ i ∧ i < 21 + 8 ∧ i < 32
            ∧ ∀ e2 off2, designatedField e2 = some (.NVIC_SYSTEM_PRI3_REG, off2) →
                ¬ inField3 off2 i)
      ∧ ∀ x, x ≠ .NVIC_SYSTEM_PRI3_REG →
          (NVIC_SetPriorityException .EXCEPTION_PEND_SV_TYPE 0xFF
              (oneRegMachine .NVIC_SYSTEM_PRI3_REG 0x200000A0)).regs x
            = (oneRegMachine .NVIC_SYSTEM_PRI3_REG 0x200000A0).regs x :=
  NVIC_SetPriorityException_any_priority .EXCEPTION_PEND_SV_TYPE 0xFF
    (oneRegMachine .NVIC_SYSTEM_PRI3_REG 0x200000A0) .NVIC_SYSTEM_PRI3_REG 21 rfl
    (by decide) (oneRegMachine_WF _ _ (by decide))

/-- C22: `SysTick_Init`, `SysTick_StartBusyWait`, `SysTick_Start`, `SysTick_Stop`,
`SysTick_DeInit` and `SysTick_Handler` each leave the callback slot equal to its prior
value; a non-null callback registered before `SysTick_Init` or before `SysTick_DeInit` is
the one, and the only one, that `SysTick_Handler` calls afterwards; and
`SysTick_SetCallBack`, for every argument (`NULL_PTR` included), and `SysTick_Handler`
leave every register as it was and perform no store. -/
theorem SysTick_callback_slot_frame (m : Machine) (d : Nat) (hw : Nat → Nat)
    (fuel f : Nat) :
    ((SysTick_Init d m).g_SysTickCallBackPtr = m.g_SysTickCallBackPtr
        ∧ (SysTick_StartBusyWait d hw fuel m).m.g_SysTickCallBackPtr
            = m.g_SysTickCallBackPtr
        ∧ (SysTick_Start m).g_SysTickCallBackPtr = m.g_SysTickCallBackPtr
        ∧ (SysTick_Stop m).g_SysTickCallBackPtr = m.g_SysTickCallBackPtr
        ∧ (SysTick_DeInit m).g_SysTickCallBackPtr = m.g_SysTickCallBackPtr
        ∧ (SysTick_Handler m).g_SysTickCallBackPtr = m.g_SysTickCallBackPtr)
      ∧ (f ≠ NULL_PTR →
          (SysTick_Handler (SysTick_Init d (SysTick_SetCallBack f m))).calls
              = m.calls ++ [f]
            ∧ (SysTick_Handler (SysTick_DeInit (SysTick_SetCallBack f m))).calls
              = m.calls ++ [f])
      ∧ ((SysTick_SetCallBack f m).regs = m.regs
        ∧ (SysTick_SetCallBack f m).writes = m.writes
        ∧ (SysTick_Handler m).regs = m.regs
        ∧ (SysTick_Handler m).writes = m.writes) := by
  refine ⟨⟨rfl, SysTick_StartBusyWait_slot d hw fuel m, rfl, rfl, rfl,
      (SysTick_Handler_frame m).2.2⟩, ?_,
    ⟨rfl, rfl, (SysTick_Handler_frame m).1, (SysTick_Handler_frame m).2.1⟩⟩
  intro hf
  exact ⟨SysTick_Handler_calls (SysTick_Init d (SysTick_SetCallBack f m)) f hf rfl,
    SysTick_Handler_calls (SysTick_DeInit (SysTick_SetCallBack f m)) f hf rfl⟩

/-- Witness for C22: callback address 77, duration 100 ms, the count flag up at the third
poll, on a machine whose control register reads `0x10007`; and `SysTick_SetCallBack` with
`NULL_PTR` on the same machine. -/
theorem SysTick_callback_slot_frame_witness :
    ((SysTick_Init 100 (oneRegMachine .SYSTICK_CTRL_REG 0x10007)).g_SysTickCallBackPtr
          = (oneRegMachine .SYSTICK_CTRL_REG 0x10007).g_SysTickCallBackPtr
        ∧ (SysTick_StartBusyWait 100 (fun k => if k < 2 then 0x5 else 0x10005) 8
              (oneRegMachine .SYSTICK_CTRL_REG 0x10007)).m.g_SysTickCallBackPtr
            = (oneRegMachine .SYSTICK_CTRL_REG 0x10007).g_SysTickCallBackPtr
        ∧ (SysTick_Start (oneRegMachine .SYSTICK_CTRL_REG 0x10007)).g_SysTickCallBackPtr
            = (oneRegMachine .SYSTICK_CTRL_REG 0x10007).g_SysTickCallBackPtr
        ∧ (SysTick_Stop (oneRegMachine .SYSTICK_CTRL_REG 0x10007)).g_SysTickCallBackPtr
            = (oneRegMachine .SYSTICK_CTRL_REG 0x10007).g_SysTickCallBackPtr
        ∧ (SysTick_DeInit (oneRegMachine .SYSTICK_CTRL_REG 0x10007)).g_SysTickCallBackPtr
            = (oneRegMachine .SYSTICK_CTRL_REG 0x10007).g_SysTickCallBackPtr
        ∧ (SysTick_Handler (oneRegMachine .SYSTICK_CTRL_REG 0x10007)).g_SysTickCallBackPtr
            = (oneRegMachine .SYSTICK_CTRL_REG 0x10007).g_SysTickCallBackPtr)
      ∧ ((SysTick_Handler (SysTick_Init 100
              (SysTick_SetCallBack 77 (oneRegMachine .SYSTICK_CTRL_REG 0x10007)))).calls
            = (oneRegMachine .SYSTICK_CTRL_REG 0x10007).calls ++ [77]
        ∧ (SysTick_Handler (SysTick_DeInit
              (SysTick_SetCallBack 77 (oneRegMachine .SYSTICK_CTRL_REG 0x10007)))).calls
            = (oneRegMachine .SYSTICK_CTRL_REG 0x10007).calls ++ [77])
      ∧ ((SysTick_SetCallBack 77 (oneRegMachine .SYSTICK_CTRL_REG 0x10007)).regs
            = (oneRegMachine .SYSTICK_CTRL_REG 0x10007).regs
        ∧ (SysTick_SetCallBack 77 (oneRegMachine .SYSTICK_CTRL_REG 0x10007)).writes
            = (oneRegMachine .SYSTICK_CTRL_REG 0x10007).writes
        ∧ (SysTick_Handler (oneRegMachine .SYSTICK_CTRL_REG 0x10007)).regs
            = (oneRegMachine .SYSTICK_CTRL_REG 0x10007).regs
        ∧ (SysTick_Handler (oneRegMachine .SYSTICK_CTRL_REG 0x10007)).writes
            = (oneRegMachine .SYSTICK_CTRL_REG 0x10007).writes)
      ∧ ((SysTick_SetCallBack NULL_PTR (oneRegMachine .SYSTICK_CTRL_REG 0x10007)).regs
            = (oneRegMachine .SYSTICK_CTRL_REG 0x10007).regs
        ∧ (SysTick_SetCallBack NULL_PTR (oneRegMachine .SYSTICK_CTRL_REG 0x10007)).writes
            = (oneRegMachine .SYSTICK_CTRL_REG 0x10007).writes) :=
  ⟨(SysTick_callback_slot_frame (oneRegMachine .SYSTICK_CTRL_REG 0x10007) 100
      (fun k => if k < 2 then 0x5 else 0x10005) 8 77).1,
    (SysTick_callback_slot_frame (oneRegMachine .SYSTICK_CTRL_REG 0x10007) 100
      (fun k => if k < 2 then 0x5 else 0x10005) 8 77).2.1 (by decide),
    (SysTick_callback_slot_frame (oneRegMachine .SYSTICK_CTRL_REG 0x10007) 100
      (fun k => if k < 2 then 0x5 else 0x10005) 8 77).2.2,
    ⟨(SysTick_callback_slot_frame (oneRegMachine .SYSTICK_CTRL_REG 0x10007) 100
        (fun k => if k < 2 then 0x5 else 0x10005) 8 NULL_PTR).2.2.1,
      (SysTick_callback_slot_frame (oneRegMachine .SYSTICK_CTRL_REG 0x10007) 100
        (fun k => if k < 2 then 0x5 else 0x10005) 8 NULL_PTR).2.2.2.1⟩⟩

end TM4C
